import Mathlib

/-!
Shallow embedding of the order-creation and order-cancellation workflow of the
e-commerce backend (NestJS + TypeORM sources under src/).  Relational tables
are lists of rows; each service method is a state-passing function
`DB → Except ServiceError α × DB`, pairing the thrown-or-returned result with
the database state at that point (writes performed before a throw persist,
as they do in the source, which opens no transaction).  Monetary values
(decimal columns and JS number arithmetic) are idealised as exact rationals;
integer counters are `Int`.  Entity ids (uuid strings in the source) are
modelled as `Nat`.
-/

namespace Ecom

/-- Product.status enum from product.entity.ts. -/
inductive ProductStatus
  | active
  | inactive
  | out_of_stock
deriving DecidableEq

/-- Order.status enum.  The order.entity.ts file is not among the given
sources; the status values are modelled from the spec (section 3) and from
the string literals used in order.service.ts and the order DTOs. -/
inductive OrderStatus
  | pending
  | confirmed
  | processing
  | shipped
  | delivered
  | cancelled
  | refunded
deriving DecidableEq

/-- Row of the products table: the columns of product.entity.ts read or
written by the order workflow. -/
structure Product where
  id : Nat
  name : String
  price : Rat
  stockQuantity : Int
  status : ProductStatus
  viewCount : Int
  salesCount : Int
  isActive : Bool
deriving DecidableEq

/-- Virtual getter Product.isInStock from product.entity.ts:
`stockQuantity > 0 && status === ACTIVE`. -/
def Product.isInStock (p : Product) : Bool :=
  decide (0 < p.stockQuantity) && decide (p.status = ProductStatus.active)

/-- Row of the orders table: the columns of the Order entity that the order
workflow reads or writes (header fields, computed totals, status). -/
structure Order where
  id : Nat
  orderNumber : String
  userId : Nat
  subtotal : Rat
  shippingCost : Rat
  taxAmount : Rat
  totalAmount : Rat
  status : OrderStatus
deriving DecidableEq

/-- Row of the order_items table (order-item.entity.ts). -/
structure OrderItem where
  id : Nat
  orderId : Nat
  productId : Nat
  quantity : Int
  price : Rat
  selectedSize : Option String
  selectedColor : Option String
deriving DecidableEq

/-- Row of the carts table (cart.entity.ts): the columns the order workflow
touches (clearCart deletes by userId). -/
structure CartRow where
  id : Nat
  userId : Nat
  productId : Nat
  quantity : Int
deriving DecidableEq

/-- CreateOrderItemDto from dto/order.dto.ts. -/
structure CreateOrderItemDto where
  productId : Nat
  quantity : Int
  selectedSize : Option String
  selectedColor : Option String
deriving DecidableEq

/-- CreateOrderDto from dto/order.dto.ts (paymentMethod omitted: never read
by the workflow logic). -/
structure CreateOrderDto where
  orderItems : List CreateOrderItemDto
  shippingAddress : Option String
  billingAddress : Option String
  notes : Option String
deriving DecidableEq

/-- Element of the orderItemsData array built inside OrderService.create. -/
structure OrderItemData where
  productId : Nat
  quantity : Int
  price : Rat
  selectedSize : Option String
  selectedColor : Option String
deriving DecidableEq

/-- Errors thrown by the services: NotFoundException and BadRequestException
from @nestjs/common, with their message strings. -/
inductive ServiceError
  | notFound (message : String)
  | badRequest (message : String)
deriving DecidableEq

deriving instance DecidableEq for Except

/-- Database state: the four tables the order workflow touches, plus the
id generators for rows the workflow inserts. -/
structure DB where
  products : List Product
  orders : List Order
  orderItems : List OrderItem
  carts : List CartRow
  nextOrderId : Nat
  nextOrderItemId : Nat
deriving DecidableEq

/-- repository.findOne by primary key: first row whose key column matches. -/
def findRow {α : Type} (key : α → Nat) (l : List α) (k : Nat) : Option α :=
  l.find? (fun y => key y == k)

/-- repository.save of an entity that is already persisted: replace the row
with the same primary key. -/
def saveRow {α : Type} (key : α → Nat) (l : List α) (x : α) : List α :=
  l.map (fun y => if key y == key x then x else y)

def DB.findProduct (db : DB) (pid : Nat) : Option Product :=
  findRow Product.id db.products pid

def DB.saveProduct (db : DB) (p : Product) : DB :=
  { db with products := saveRow Product.id db.products p }

def DB.findOrder (db : DB) (oid : Nat) : Option Order :=
  findRow Order.id db.orders oid

def DB.saveOrder (db : DB) (o : Order) : DB :=
  { db with orders := saveRow Order.id db.orders o }

/-- ProductService.findById: look the product up; on success increment its
viewCount and save it before returning it (product.service.ts lines 143-158).
A missing product raises NotFoundException. -/
def ProductService.findById (db : DB) (id : Nat) : Except ServiceError Product × DB :=
  match db.findProduct id with
  | none => (.error (.notFound "Product not found"), db)
  | some product =>
      let product := { product with viewCount := product.viewCount + 1 }
      (.ok product, db.saveProduct product)

/-- ProductService.update: findById (which itself bumps viewCount and saves),
then Object.assign with the given dto — every column of the fetched row is
overwritten by the corresponding field of the dto — and save
(product.service.ts lines 199-204).  In the cancellation workflow the dto is
a full Product value. -/
def ProductService.update (db : DB) (id : Nat) (dto : Product) : Except ServiceError Product × DB :=
  match ProductService.findById db id with
  | (.error e, db₁) => (.error e, db₁)
  | (.ok _, db₁) => (.ok dto, db₁.saveProduct dto)

/-- ProductService.updateStock (product.service.ts lines 206-221): findById,
guard `stockQuantity < quantity`, decrement stock, increment salesCount, set
status to out_of_stock exactly when the new stock is 0, save. -/
def ProductService.updateStock (db : DB) (id : Nat) (quantity : Int) :
    Except ServiceError Product × DB :=
  match ProductService.findById db id with
  | (.error e, db₁) => (.error e, db₁)
  | (.ok product, db₁) =>
      if product.stockQuantity < quantity then
        (.error (.badRequest "Insufficient stock"), db₁)
      else
        let product := { product with
          stockQuantity := product.stockQuantity - quantity,
          salesCount := product.salesCount + quantity }
        let product :=
          if product.stockQuantity = 0 then
            { product with status := ProductStatus.out_of_stock }
          else product
        (.ok product, db₁.saveProduct product)

/-- CartService.clearCart (cart.service.ts lines 96-98):
`cartRepository.delete with userId` removes every cart row of that user. -/
def CartService.clearCart (db : DB) (userId : Nat) : DB :=
  { db with carts := db.carts.filter (fun c => !(c.userId == userId)) }

/-- First loop of OrderService.create (order.service.ts lines 24-35): for
each requested item fetch the product (ProductService.findById, with its
viewCount side effect), fail with out-of-stock if `!product.isInStock`, fail
with insufficient-stock if `stockQuantity < quantity`. -/
def OrderService.validateItems (db : DB) :
    List CreateOrderItemDto → Except ServiceError Unit × DB
  | [] => (.ok (), db)
  | item :: rest =>
    match ProductService.findById db item.productId with
    | (.error e, db₁) => (.error e, db₁)
    | (.ok product, db₁) =>
      if !product.isInStock then
        (.error (.badRequest ("Product " ++ product.name ++ " is out of stock")), db₁)
      else if product.stockQuantity < item.quantity then
        (.error (.badRequest ("Insufficient stock for " ++ product.name)), db₁)
      else
        OrderService.validateItems db₁ rest

/-- Second loop of OrderService.create (order.service.ts lines 47-60): fetch
each product again, accumulate `subtotal += price * quantity` and push the
price-snapshot record onto orderItemsData.  The mutable accumulator variables
are the explicit arguments. -/
def OrderService.priceItems (db : DB) (subtotal : Rat) (acc : List OrderItemData) :
    List CreateOrderItemDto → Except ServiceError (Rat × List OrderItemData) × DB
  | [] => (.ok (subtotal, acc), db)
  | item :: rest =>
    match ProductService.findById db item.productId with
    | (.error e, db₁) => (.error e, db₁)
    | (.ok product, db₁) =>
      let itemPrice := product.price
      let itemTotal := itemPrice * (item.quantity : Rat)
      OrderService.priceItems db₁ (subtotal + itemTotal)
        (acc ++ [{ productId := item.productId, quantity := item.quantity,
                   price := itemPrice, selectedSize := item.selectedSize,
                   selectedColor := item.selectedColor }]) rest

/-- Third loop of OrderService.create (order.service.ts lines 87-100): for
each accumulated item record, insert an order_items row with the price
snapshot, then ProductService.updateStock on its product. -/
def OrderService.persistItems (db : DB) (orderId : Nat) :
    List OrderItemData → Except ServiceError Unit × DB
  | [] => (.ok (), db)
  | d :: rest =>
    let orderItem : OrderItem :=
      { id := db.nextOrderItemId, orderId := orderId, productId := d.productId,
        quantity := d.quantity, price := d.price,
        selectedSize := d.selectedSize, selectedColor := d.selectedColor }
    let db₁ := { db with orderItems := db.orderItems ++ [orderItem],
                         nextOrderItemId := db.nextOrderItemId + 1 }
    match ProductService.updateStock db₁ d.productId d.quantity with
    | (.error e, db₂) => (.error e, db₂)
    | (.ok _, db₂) => OrderService.persistItems db₂ orderId rest

/-- OrderService.findById, restricted to the order row itself (the relations
it hydrates are readable from the same state): no side effect. -/
def OrderService.findById (db : DB) (id : Nat) : Except ServiceError Order × DB :=
  match db.findOrder id with
  | none => (.error (.notFound "Order not found"), db)
  | some order => (.ok order, db)

/-- The Order header row that OrderService.create persists, as a function of
the generated id, the order number, the user and the computed subtotal
(order.service.ts lines 62-84): shipping is free strictly above 100, tax is
8 percent of the subtotal with no rounding, the total is their sum, and the
status starts at the default of the Order entity.  The order.entity.ts file
is not among the given sources; the default status pending is modelled from
the spec (section 3 lists pending first and section 4.2 creates orders
awaiting payment). -/
def mkOrder (oid : Nat) (onum : String) (uid : Nat) (subtotal : Rat) : Order :=
  { id := oid, orderNumber := onum, userId := uid, subtotal := subtotal,
    shippingCost := if subtotal > 100 then 0 else 10,
    taxAmount := subtotal * (8 / 100),
    totalAmount := subtotal + (if subtotal > 100 then (0 : Rat) else 10) +
      subtotal * (8 / 100),
    status := OrderStatus.pending }

/-- OrderService.create (order.service.ts lines 21-106): validate every item,
price every item, compute shipping, tax and total and form the order header
(mkOrder), insert the order header, insert the line items while decrementing
stock, clear the cart of the user, and re-read the order.  The generated
order number (timestamp plus random suffix) is nondeterministic in the
source and is taken as an argument here. -/
def OrderService.create (db : DB) (userId : Nat) (dto : CreateOrderDto)
    (orderNumber : String) : Except ServiceError Order × DB :=
  match OrderService.validateItems db dto.orderItems with
  | (.error e, db₁) => (.error e, db₁)
  | (.ok _, db₁) =>
    match OrderService.priceItems db₁ 0 [] dto.orderItems with
    | (.error e, db₂) => (.error e, db₂)
    | (.ok (subtotal, orderItemsData), db₂) =>
      let order : Order := mkOrder db₂.nextOrderId orderNumber userId subtotal
      let db₃ := { db₂ with orders := db₂.orders ++ [order],
                            nextOrderId := db₂.nextOrderId + 1 }
      match OrderService.persistItems db₃ order.id orderItemsData with
      | (.error e, db₄) => (.error e, db₄)
      | (.ok _, db₄) =>
        let db₅ := CartService.clearCart db₄ userId
        OrderService.findById db₅ order.id

/-- Quantity of product `k` requested across a list of order items
(specification-side helper). -/
def qtyOrdered (k : Nat) : List CreateOrderItemDto → Int
  | [] => 0
  | i :: rest => (if i.productId = k then i.quantity else 0) + qtyOrdered k rest

/-- Number of requested line items referencing product `k`
(specification-side helper). -/
def countRefs (k : Nat) : List CreateOrderItemDto → Int
  | [] => 0
  | i :: rest => (if i.productId = k then 1 else 0) + countRefs k rest

/-- Quantity of product `k` across accumulated order-item records
(specification-side helper). -/
def qtyData (k : Nat) : List OrderItemData → Int
  | [] => 0
  | d :: rest => (if d.productId = k then d.quantity else 0) + qtyData k rest

/-- Number of accumulated order-item records referencing product `k`
(specification-side helper). -/
def countData (k : Nat) : List OrderItemData → Int
  | [] => 0
  | d :: rest => (if d.productId = k then 1 else 0) + countData k rest

/-- Quantity of product `k` across persisted line items
(specification-side helper). -/
def qtyItems (k : Nat) : List OrderItem → Int
  | [] => 0
  | oi :: rest => (if oi.productId = k then oi.quantity else 0) + qtyItems k rest

/-- Sum of price times quantity over accumulated order-item records
(specification-side helper). -/
def sumData : List OrderItemData → Rat
  | [] => 0
  | d :: rest => d.price * (d.quantity : Rat) + sumData rest

/-- Sum of snapshot price times quantity over persisted line items
(specification-side helper). -/
def sumLineItems : List OrderItem → Rat
  | [] => 0
  | oi :: rest => oi.price * (oi.quantity : Rat) + sumLineItems rest

/-- Rounding a rational to 2 decimal places (the rounding the spec asserts
for monetary fields; the source never applies it). -/
def round2 (x : Rat) : Rat := ((⌊x * 100 + 1 / 2⌋ : Int) : Rat) / 100

/-- Restoration loop of OrderService.cancelOrder (order.service.ts lines
232-238): for each line item fetch the product, add the quantity back onto
stockQuantity, subtract it from salesCount, and write the row back through
ProductService.update. -/
def OrderService.restoreItems (db : DB) : List OrderItem → Except ServiceError Unit × DB
  | [] => (.ok (), db)
  | orderItem :: rest =>
    match ProductService.findById db orderItem.productId with
    | (.error e, db₁) => (.error e, db₁)
    | (.ok product, db₁) =>
      let product := { product with
        stockQuantity := product.stockQuantity + orderItem.quantity,
        salesCount := product.salesCount - orderItem.quantity }
      match ProductService.update db₁ orderItem.productId product with
      | (.error e, db₂) => (.error e, db₂)
      | (.ok _, db₂) => OrderService.restoreItems db₂ rest

/-- OrderService.cancelOrder (order.service.ts lines 225-242): fetch the
order, reject delivered and cancelled orders, restore stock for each of its
line items, set status to cancelled and save. -/
def OrderService.cancelOrder (db : DB) (id : Nat) : Except ServiceError Order × DB :=
  match OrderService.findById db id with
  | (.error e, db₁) => (.error e, db₁)
  | (.ok order, db₁) =>
    if order.status = OrderStatus.delivered ∨ order.status = OrderStatus.cancelled then
      (.error (.badRequest "Cannot cancel this order"), db₁)
    else
      match OrderService.restoreItems db₁
          (db₁.orderItems.filter (fun oi => oi.orderId == id)) with
      | (.error e, db₂) => (.error e, db₂)
      | (.ok _, db₂) =>
        let order := { order with status := OrderStatus.cancelled }
        (.ok order, db₂.saveOrder order)

/-- A product row with its viewCount field zeroed: two rows related by
`viewErase` agree on every column except viewCount
(specification-side helper). -/
def viewErase (p : Product) : Product := { p with viewCount := 0 }

/-- The row ProductService.updateStock writes on success, as a function of
the fetched row and the quantity (specification-side helper mirroring the
body of updateStock). -/
def stockedRow (p : Product) (q : Int) : Product :=
  let p₁ := { p with viewCount := p.viewCount + 1,
                     stockQuantity := p.stockQuantity - q,
                     salesCount := p.salesCount + q }
  if p.stockQuantity - q = 0 then { p₁ with status := ProductStatus.out_of_stock } else p₁

/-- The row the cancellation loop writes for one line item, as a function of
the fetched row and the restored quantity (specification-side helper). -/
def restoredRow (p : Product) (q : Int) : Product :=
  { p with viewCount := p.viewCount + 1,
           stockQuantity := p.stockQuantity + q,
           salesCount := p.salesCount - q }

/-- The order_items rows the persistence loop inserts for an order, given
the first generated row id (specification-side helper). -/
def mkItems (oid : Nat) (nid : Nat) : List OrderItemData → List OrderItem
  | [] => []
  | d :: rest =>
    { id := nid, orderId := oid, productId := d.productId, quantity := d.quantity,
      price := d.price, selectedSize := d.selectedSize,
      selectedColor := d.selectedColor } :: mkItems oid (nid + 1) rest

/-- The prefix of requested items whose product lookup succeeded during the
validation loop, the item that failed a stock check included
(specification-side helper; it mirrors the recursion of validateItems). -/
def lookedUp (db : DB) : List CreateOrderItemDto → List CreateOrderItemDto
  | [] => []
  | item :: rest =>
    match ProductService.findById db item.productId with
    | (.error _, _) => []
    | (.ok product, db₁) =>
      if !product.isInStock then [item]
      else if product.stockQuantity < item.quantity then [item]
      else item :: lookedUp db₁ rest

/-- Concrete fixture: an active product, price 20.00, stock 10 (the scenario
of section 8 of the spec). -/
def prodA : Product :=
  { id := 1, name := "A", price := 20, stockQuantity := 10,
    status := ProductStatus.active, viewCount := 0, salesCount := 0, isActive := true }

/-- Concrete fixture: an active product with stock 3. -/
def prodB : Product :=
  { id := 2, name := "B", price := 5, stockQuantity := 3,
    status := ProductStatus.active, viewCount := 0, salesCount := 0, isActive := true }

/-- Concrete fixture: a product whose status is inactive but whose stock is
positive. -/
def prodC : Product :=
  { id := 3, name := "C", price := 5, stockQuantity := 5,
    status := ProductStatus.inactive, viewCount := 0, salesCount := 0, isActive := true }

/-- Concrete fixture: an active product priced 0.13. -/
def prodD : Product :=
  { id := 4, name := "D", price := 13 / 100, stockQuantity := 1,
    status := ProductStatus.active, viewCount := 0, salesCount := 0, isActive := true }

/-- Concrete fixture: an active product priced 100.00. -/
def prodE : Product :=
  { id := 5, name := "E", price := 100, stockQuantity := 5,
    status := ProductStatus.active, viewCount := 0, salesCount := 0, isActive := true }

/-- Concrete fixture: an active product priced 100.01. -/
def prodF : Product :=
  { id := 6, name := "F", price := 10001 / 100, stockQuantity := 5,
    status := ProductStatus.active, viewCount := 0, salesCount := 0, isActive := true }

/-- Concrete fixture: an active product with stock 2 and 9 recorded sales. -/
def prodG : Product :=
  { id := 7, name := "G", price := 8, stockQuantity := 2,
    status := ProductStatus.active, viewCount := 0, salesCount := 9, isActive := true }

/-- Concrete fixture: the expected state of prodA after a successful order
of 3 units: stock 7, salesCount 3, viewCount 3. -/
def prodA7 : Product :=
  { id := 1, name := "A", price := 20, stockQuantity := 7,
    status := ProductStatus.active, viewCount := 3, salesCount := 3, isActive := true }

/-- Concrete fixture: the expected state of prodA after cancelling a
shipped order of 3 units: stock 13, salesCount -3, viewCount 1. -/
def prodA13 : Product :=
  { id := 1, name := "A", price := 20, stockQuantity := 13,
    status := ProductStatus.active, viewCount := 1, salesCount := -3, isActive := true }

/-- Concrete fixture: a database with product prodA and a cart for user 7
holding a row for the ordered product and a row for another product, plus a
cart row of another user. -/
def dbA : DB :=
  { products := [prodA], orders := [], orderItems := [],
    carts := [{ id := 1, userId := 7, productId := 1, quantity := 2 },
              { id := 2, userId := 7, productId := 9, quantity := 1 },
              { id := 3, userId := 8, productId := 1, quantity := 1 }],
    nextOrderId := 100, nextOrderItemId := 500 }

/-- Concrete fixture: request of 3 units of product 1. -/
def dtoA : CreateOrderDto :=
  { orderItems := [{ productId := 1, quantity := 3, selectedSize := none,
                     selectedColor := none }],
    shippingAddress := none, billingAddress := none, notes := none }

/-- Concrete fixture: a database holding only prodB. -/
def dbB : DB :=
  { products := [prodB], orders := [], orderItems := [], carts := [],
    nextOrderId := 1, nextOrderItemId := 1 }

/-- Concrete fixture: request of 5 units of product 2 (stock is only 3). -/
def dtoB : CreateOrderDto :=
  { orderItems := [{ productId := 2, quantity := 5, selectedSize := none,
                     selectedColor := none }],
    shippingAddress := none, billingAddress := none, notes := none }

/-- Concrete fixture: a database holding only the inactive prodC. -/
def dbC : DB :=
  { products := [prodC], orders := [], orderItems := [], carts := [],
    nextOrderId := 1, nextOrderItemId := 1 }

/-- Concrete fixture: request of 1 unit of the inactive product 3. -/
def dtoC : CreateOrderDto :=
  { orderItems := [{ productId := 3, quantity := 1, selectedSize := none,
                     selectedColor := none }],
    shippingAddress := none, billingAddress := none, notes := none }

/-- Concrete fixture: a database holding only prodD. -/
def dbD : DB :=
  { products := [prodD], orders := [], orderItems := [], carts := [],
    nextOrderId := 1, nextOrderItemId := 1 }

/-- Concrete fixture: request of 1 unit of product 4 (price 0.13). -/
def dtoD : CreateOrderDto :=
  { orderItems := [{ productId := 4, quantity := 1, selectedSize := none,
                     selectedColor := none }],
    shippingAddress := none, billingAddress := none, notes := none }

/-- Concrete fixture: a database holding only prodE. -/
def dbE : DB :=
  { products := [prodE], orders := [], orderItems := [], carts := [],
    nextOrderId := 1, nextOrderItemId := 1 }

/-- Concrete fixture: request of 1 unit of product 5 (subtotal exactly
100.00). -/
def dtoE : CreateOrderDto :=
  { orderItems := [{ productId := 5, quantity := 1, selectedSize := none,
                     selectedColor := none }],
    shippingAddress := none, billingAddress := none, notes := none }

/-- Concrete fixture: a database holding only prodF. -/
def dbF : DB :=
  { products := [prodF], orders := [], orderItems := [], carts := [],
    nextOrderId := 1, nextOrderItemId := 1 }

/-- Concrete fixture: request of 1 unit of product 6 (subtotal 100.01). -/
def dtoF : CreateOrderDto :=
  { orderItems := [{ productId := 6, quantity := 1, selectedSize := none,
                     selectedColor := none }],
    shippingAddress := none, billingAddress := none, notes := none }

/-- Concrete fixture: a shipped order of 3 units of product 1. -/
def ordG : Order :=
  { id := 40, orderNumber := "ORD-G", userId := 7, subtotal := 60,
    shippingCost := 10, taxAmount := 24 / 5, totalAmount := 374 / 5,
    status := OrderStatus.shipped }

/-- Concrete fixture: a delivered order of 2 units of product 1. -/
def ordH : Order :=
  { id := 41, orderNumber := "ORD-H", userId := 7, subtotal := 40,
    shippingCost := 10, taxAmount := 16 / 5, totalAmount := 266 / 5,
    status := OrderStatus.delivered }

/-- Concrete fixture: a database with prodA and the two orders ordG and
ordH, each with one line item. -/
def dbG : DB :=
  { products := [prodA], orders := [ordG, ordH],
    orderItems := [{ id := 600, orderId := 40, productId := 1, quantity := 3,
                     price := 20, selectedSize := none, selectedColor := none },
                   { id := 601, orderId := 41, productId := 1, quantity := 2,
                     price := 20, selectedSize := none, selectedColor := none }],
    carts := [], nextOrderId := 1000, nextOrderItemId := 1000 }

/-- A requested line item passes the checks of the validation loop against a
database state: its product exists, is in stock, and holds at least the
requested quantity (specification-side helper mirroring lines 25-35 of
order.service.ts; viewCount plays no role in the checks). -/
def itemPasses (db : DB) (i : CreateOrderItemDto) : Bool :=
  match db.findProduct i.productId with
  | none => false
  | some p => p.isInStock && decide (¬ p.stockQuantity < i.quantity)

/-- Concrete fixture: a database holding prodB (active, stock 3) and the
inactive prodC. -/
def dbBC : DB :=
  { products := [prodB, prodC], orders := [], orderItems := [], carts := [],
    nextOrderId := 1, nextOrderItemId := 1 }

/-- Concrete fixture: a two-item request whose first item (1 unit of product
2) passes validation and whose second item references the inactive product
3. -/
def dtoBC : CreateOrderDto :=
  { orderItems := [{ productId := 2, quantity := 1, selectedSize := none,
                     selectedColor := none },
                   { productId := 3, quantity := 1, selectedSize := none,
                     selectedColor := none }],
    shippingAddress := none, billingAddress := none, notes := none }

/-- Concrete fixture: a two-item request whose first item (1 unit of product
2) passes validation and whose second item references the absent product
99. -/
def dtoBM : CreateOrderDto :=
  { orderItems := [{ productId := 2, quantity := 1, selectedSize := none,
                     selectedColor := none },
                   { productId := 99, quantity := 1, selectedSize := none,
                     selectedColor := none }],
    shippingAddress := none, billingAddress := none, notes := none }

/-- Two database states agreeing on every table except products
(specification-side helper for frame lemmas). -/
def sideAgree (db db' : DB) : Prop :=
  db'.orders = db.orders ∧ db'.orderItems = db.orderItems ∧ db'.carts = db.carts ∧
  db'.nextOrderId = db.nextOrderId ∧ db'.nextOrderItemId = db.nextOrderItemId

/-- Two database states whose product tables agree on every column except
viewCount, key by key (specification-side helper for frame lemmas). -/
def prodAgree (db db' : DB) : Prop :=
  ∀ k, (db'.findProduct k).map viewErase = (db.findProduct k).map viewErase

theorem findRow_key {α : Type} {key : α → Nat} {l : List α} {k : Nat} {a : α}
    (h : findRow key l k = some a) : key a = k := by
  have h₂ := List.find?_some h
  simpa using h₂

theorem find?_cons_pos {α : Type} (p : α → Bool) (a : α) (l : List α) (h : p a = true) :
    List.find? p (a :: l) = some a := List.find?_cons_of_pos l h

theorem find?_cons_neg {α : Type} (p : α → Bool) (a : α) (l : List α) (h : p a = false) :
    List.find? p (a :: l) = List.find? p l := List.find?_cons_of_neg l (by simp [h])

theorem findRow_saveRow {α : Type} (key : α → Nat) (l : List α) (x : α) (k : Nat) :
    findRow key (saveRow key l x) k =
      if key x = k then (findRow key l k).map (fun _ => x) else findRow key l k := by
  induction l with
  | nil =>
    simp only [findRow, saveRow, List.map_nil, List.find?_nil]
    split <;> rfl
  | cons y l ih =>
    simp only [findRow, saveRow, List.map_cons] at ih ⊢
    by_cases hyx : key y = key x
    · have h₁ : (key y == key x) = true := by simpa using hyx
      rw [if_pos h₁]
      by_cases hxk : key x = k
      · rw [find?_cons_pos (fun z => key z == k) x _ (by simpa using hxk),
            find?_cons_pos (fun z => key z == k) y _ (by simpa using hyx.trans hxk),
            if_pos hxk]
        rfl
      · rw [find?_cons_neg (fun z => key z == k) x _ (by simpa using hxk),
            find?_cons_neg (fun z => key z == k) y _
              (by simpa using fun h => hxk (hyx.symm.trans h)),
            if_neg hxk]
        rw [if_neg hxk] at ih
        exact ih
    · have h₁ : (key y == key x) = false := by simpa using hyx
      rw [if_neg (by simp [h₁] : ¬ ((key y == key x) = true))]
      by_cases hyk : key y = k
      · have hxk : ¬ key x = k := fun h => hyx (hyk.trans h.symm)
        rw [find?_cons_pos (fun z => key z == k) y _ (by simpa using hyk),
            find?_cons_pos (fun z => key z == k) y _ (by simpa using hyk),
            if_neg hxk]
      · rw [find?_cons_neg (fun z => key z == k) y _ (by simpa using hyk),
            find?_cons_neg (fun z => key z == k) y _ (by simpa using hyk)]
        exact ih

theorem findProduct_saveProduct (db : DB) (x : Product) (k : Nat) :
    (db.saveProduct x).findProduct k =
      if x.id = k then (db.findProduct k).map (fun _ => x) else db.findProduct k :=
  findRow_saveRow Product.id db.products x k

theorem findOrder_saveOrder (db : DB) (x : Order) (k : Nat) :
    (db.saveOrder x).findOrder k =
      if x.id = k then (db.findOrder k).map (fun _ => x) else db.findOrder k :=
  findRow_saveRow Order.id db.orders x k

theorem mkOrder_id (oid : Nat) (onum : String) (uid : Nat) (s : Rat) :
    (mkOrder oid onum uid s).id = oid := rfl

theorem mkOrder_subtotal (oid : Nat) (onum : String) (uid : Nat) (s : Rat) :
    (mkOrder oid onum uid s).subtotal = s := rfl

theorem mkOrder_shipping (oid : Nat) (onum : String) (uid : Nat) (s : Rat) :
    (mkOrder oid onum uid s).shippingCost = if s > 100 then 0 else 10 := rfl

theorem mkOrder_tax (oid : Nat) (onum : String) (uid : Nat) (s : Rat) :
    (mkOrder oid onum uid s).taxAmount = s * (8 / 100) := rfl

theorem mkOrder_total (oid : Nat) (onum : String) (uid : Nat) (s : Rat) :
    (mkOrder oid onum uid s).totalAmount =
      (mkOrder oid onum uid s).subtotal + (mkOrder oid onum uid s).shippingCost +
        (mkOrder oid onum uid s).taxAmount := rfl

theorem sideAgree_refl (db : DB) : sideAgree db db := by
  exact ⟨rfl, rfl, rfl, rfl, rfl⟩

theorem sideAgree_trans {db₁ db₂ db₃ : DB} (h₁ : sideAgree db₁ db₂)
    (h₂ : sideAgree db₂ db₃) : sideAgree db₁ db₃ := by
  obtain ⟨a₁, b₁, c₁, d₁, e₁⟩ := h₁
  obtain ⟨a₂, b₂, c₂, d₂, e₂⟩ := h₂
  exact ⟨a₂.trans a₁, b₂.trans b₁, c₂.trans c₁, d₂.trans d₁, e₂.trans e₁⟩

theorem prodAgree_refl (db : DB) : prodAgree db db := fun _ => rfl

theorem prodAgree_trans {db₁ db₂ db₃ : DB} (h₁ : prodAgree db₁ db₂)
    (h₂ : prodAgree db₂ db₃) : prodAgree db₁ db₃ :=
  fun k => (h₂ k).trans (h₁ k)

theorem prodAgree_isSome {db db' : DB} (h : prodAgree db db') (k : Nat) :
    (db'.findProduct k).isSome = (db.findProduct k).isSome := by
  have h₂ := h k
  cases hx : db.findProduct k <;> cases hy : db'.findProduct k <;>
    simp [hx, hy] at h₂ ⊢

theorem saveProduct_sideAgree (db : DB) (x : Product) :
    sideAgree db (db.saveProduct x) := ⟨rfl, rfl, rfl, rfl, rfl⟩

theorem ProductService.findById_error {db : DB} {pid : Nat}
    (h : db.findProduct pid = none) :
    ProductService.findById db pid = (.error (.notFound "Product not found"), db) := by
  simp [ProductService.findById, h]

theorem ProductService.findById_ok {db : DB} {pid : Nat} {p : Product}
    (h : db.findProduct pid = some p) :
    ProductService.findById db pid =
      (.ok { p with viewCount := p.viewCount + 1 },
       db.saveProduct { p with viewCount := p.viewCount + 1 }) := by
  simp [ProductService.findById, h]

theorem ProductService.findById_sideAgree (db : DB) (pid : Nat) :
    sideAgree db (ProductService.findById db pid).2 := by
  cases h : db.findProduct pid with
  | none => rw [ProductService.findById_error h]; exact sideAgree_refl db
  | some p => rw [ProductService.findById_ok h]; exact saveProduct_sideAgree db _

theorem findProduct_saveProduct_of_found {db : DB} {pid : Nat} {p : Product}
    (h : db.findProduct pid = some p) (x : Product) (hx : x.id = p.id) (k : Nat) :
    (db.saveProduct x).findProduct k =
      if pid = k then some x else db.findProduct k := by
  have hid : p.id = pid := findRow_key h
  rw [findProduct_saveProduct]
  by_cases hk : pid = k
  · subst hk
    simp [hx, hid, h]
  · simp [hx, hid, hk]

theorem ProductService.findById_prodAgree (db : DB) (pid : Nat) :
    prodAgree db (ProductService.findById db pid).2 := by
  cases h : db.findProduct pid with
  | none => rw [ProductService.findById_error h]; exact prodAgree_refl db
  | some p =>
    rw [ProductService.findById_ok h]
    intro k
    dsimp only
    rw [findProduct_saveProduct_of_found h { p with viewCount := p.viewCount + 1 } rfl k]
    by_cases hk : pid = k
    · subst hk
      simp [h, viewErase]
    · simp [hk]

theorem stockedRow_id (p : Product) (q : Int) : (stockedRow p q).id = p.id := by
  rw [stockedRow]; split <;> rfl

theorem stockedRow_stock (p : Product) (q : Int) :
    (stockedRow p q).stockQuantity = p.stockQuantity - q := by
  rw [stockedRow]; split <;> rfl

theorem stockedRow_sales (p : Product) (q : Int) :
    (stockedRow p q).salesCount = p.salesCount + q := by
  rw [stockedRow]; split <;> rfl

theorem stockedRow_view (p : Product) (q : Int) :
    (stockedRow p q).viewCount = p.viewCount + 1 := by
  rw [stockedRow]; split <;> rfl

theorem stockedRow_status (p : Product) (q : Int) :
    (stockedRow p q).status =
      if p.stockQuantity - q = 0 then ProductStatus.out_of_stock else p.status := by
  rw [stockedRow]; split <;> simp_all

theorem ProductService.updateStock_guard_fail {db : DB} {pid : Nat} {p : Product} {q : Int}
    (h : db.findProduct pid = some p) (hq : p.stockQuantity < q) :
    ProductService.updateStock db pid q =
      (.error (.badRequest "Insufficient stock"),
       db.saveProduct { p with viewCount := p.viewCount + 1 }) := by
  rw [ProductService.updateStock, ProductService.findById_ok h]
  dsimp only
  rw [if_pos hq]

theorem ProductService.updateStock_ok {db : DB} {pid : Nat} {p : Product} {q : Int}
    (h : db.findProduct pid = some p) (hq : ¬ p.stockQuantity < q) :
    ProductService.updateStock db pid q =
      (.ok (stockedRow p q),
       (db.saveProduct { p with viewCount := p.viewCount + 1 }).saveProduct (stockedRow p q)) := by
  rw [ProductService.updateStock, ProductService.findById_ok h]
  dsimp only
  rw [if_neg hq]
  rw [stockedRow]

theorem updateStock_ok_effect {db : DB} {pid : Nat} {q : Int} {r : Product}
    (h : (ProductService.updateStock db pid q).1 = .ok r) :
    ∃ p, db.findProduct pid = some p ∧ q ≤ p.stockQuantity ∧ r = stockedRow p q ∧
      sideAgree db (ProductService.updateStock db pid q).2 ∧
      (∀ k, (ProductService.updateStock db pid q).2.findProduct k =
        if pid = k then some (stockedRow p q) else db.findProduct k) := by
  cases hp : db.findProduct pid with
  | none =>
    rw [ProductService.updateStock, ProductService.findById_error hp] at h
    simp at h
  | some p =>
    by_cases hq : p.stockQuantity < q
    · rw [ProductService.updateStock_guard_fail hp hq] at h
      simp at h
    · refine ⟨p, rfl, not_lt.mp hq, ?_, ?_, ?_⟩
      · rw [ProductService.updateStock_ok hp hq] at h
        simpa using h.symm
      · rw [ProductService.updateStock_ok hp hq]
        exact sideAgree_trans (saveProduct_sideAgree _ _) (saveProduct_sideAgree _ _)
      · intro k
        rw [ProductService.updateStock_ok hp hq]
        dsimp only
        have h₁ : (db.saveProduct { p with viewCount := p.viewCount + 1 }).findProduct pid =
            some { p with viewCount := p.viewCount + 1 } := by
          rw [findProduct_saveProduct_of_found hp { p with viewCount := p.viewCount + 1 } rfl pid]
          simp
        rw [findProduct_saveProduct_of_found h₁ (stockedRow p q) (stockedRow_id p q) k]
        by_cases hk : pid = k
        · simp [hk]
        · rw [if_neg hk, if_neg hk,
            findProduct_saveProduct_of_found hp { p with viewCount := p.viewCount + 1 } rfl k,
            if_neg hk]

theorem ProductService.update_ok {db : DB} {pid : Nat} {p : Product} (dto : Product)
    (h : db.findProduct pid = some p) :
    ProductService.update db pid dto =
      (.ok dto, (db.saveProduct { p with viewCount := p.viewCount + 1 }).saveProduct dto) := by
  rw [ProductService.update, ProductService.findById_ok h]

theorem validateItems_agree (items : List CreateOrderItemDto) :
    ∀ db : DB, sideAgree db (OrderService.validateItems db items).2 ∧
      prodAgree db (OrderService.validateItems db items).2 := by
  induction items with
  | nil => exact fun db => ⟨sideAgree_refl db, prodAgree_refl db⟩
  | cons item rest ih =>
    intro db
    rw [OrderService.validateItems]
    cases hf : ProductService.findById db item.productId with
    | mk res db₁ =>
      have hside : sideAgree db db₁ := by
        have h₂ := ProductService.findById_sideAgree db item.productId
        rwa [hf] at h₂
      have hprod : prodAgree db db₁ := by
        have h₂ := ProductService.findById_prodAgree db item.productId
        rwa [hf] at h₂
      cases res with
      | error e => exact ⟨hside, hprod⟩
      | ok product =>
        dsimp only
        by_cases h₁ : (!product.isInStock) = true
        · rw [if_pos h₁]
          exact ⟨hside, hprod⟩
        · rw [if_neg h₁]
          by_cases h₂ : product.stockQuantity < item.quantity
          · rw [if_pos h₂]
            exact ⟨hside, hprod⟩
          · rw [if_neg h₂]
            obtain ⟨s, pr⟩ := ih db₁
            exact ⟨sideAgree_trans hside s, prodAgree_trans hprod pr⟩

theorem create_validate_error {db : DB} {uid : Nat} {dto : CreateOrderDto} {onum : String}
    {e : ServiceError} {db₁ : DB}
    (h : OrderService.validateItems db dto.orderItems = (.error e, db₁)) :
    OrderService.create db uid dto onum = (.error e, db₁) := by
  rw [OrderService.create, h]

theorem validateItems_viewCount (items : List CreateOrderItemDto) :
    ∀ (db : DB) (k : Nat) (p p' : Product), db.findProduct k = some p →
      (OrderService.validateItems db items).2.findProduct k = some p' →
      p'.viewCount = p.viewCount + countRefs k (lookedUp db items) := by
  induction items with
  | nil =>
    intro db k p p' hp hp'
    rw [OrderService.validateItems] at hp'
    rw [hp] at hp'
    injection hp' with hpp
    subst hpp
    simp [lookedUp, countRefs]
  | cons item rest ih =>
    intro db k p p' hp hp'
    rw [OrderService.validateItems] at hp'
    rw [lookedUp]
    cases hf : db.findProduct item.productId with
    | none =>
      rw [ProductService.findById_error hf] at hp' ⊢
      dsimp only at hp' ⊢
      rw [hp] at hp'
      injection hp' with hpp
      subst hpp
      simp [countRefs]
    | some prod =>
      rw [ProductService.findById_ok hf] at hp' ⊢
      dsimp only at hp' ⊢
      have hmid : ∀ k', (db.saveProduct
          { prod with viewCount := prod.viewCount + 1 }).findProduct k' =
          if item.productId = k' then some { prod with viewCount := prod.viewCount + 1 }
          else db.findProduct k' :=
        fun k' => findProduct_saveProduct_of_found hf
          { prod with viewCount := prod.viewCount + 1 } rfl k'
      by_cases h₁ : (!Product.isInStock { prod with viewCount := prod.viewCount + 1 }) = true
      · rw [if_pos h₁] at hp' ⊢
        dsimp only at hp'
        rw [hmid k] at hp'
        by_cases hk : item.productId = k
        · rw [if_pos hk] at hp'
          injection hp' with hpp
          rw [hk] at hf
          rw [hf] at hp
          injection hp with hpq
          subst hpq
          rw [← hpp]
          simp [countRefs, hk]
        · rw [if_neg hk] at hp'
          rw [hp] at hp'
          injection hp' with hpp
          subst hpp
          simp [countRefs, hk]
      · rw [if_neg h₁] at hp' ⊢
        by_cases h₂ : Product.stockQuantity { prod with viewCount := prod.viewCount + 1 }
            < item.quantity
        · rw [if_pos h₂] at hp' ⊢
          dsimp only at hp'
          rw [hmid k] at hp'
          by_cases hk : item.productId = k
          · rw [if_pos hk] at hp'
            injection hp' with hpp
            rw [hk] at hf
            rw [hf] at hp
            injection hp with hpq
            subst hpq
            rw [← hpp]
            simp [countRefs, hk]
          · rw [if_neg hk] at hp'
            rw [hp] at hp'
            injection hp' with hpp
            subst hpp
            simp [countRefs, hk]
        · rw [if_neg h₂] at hp' ⊢
          by_cases hk : item.productId = k
          · have hmidk : (db.saveProduct
                { prod with viewCount := prod.viewCount + 1 }).findProduct k =
                some { prod with viewCount := prod.viewCount + 1 } := by
              rw [hmid k, if_pos hk]
            have hdelta := ih _ k _ p' hmidk hp'
            rw [hk] at hf
            rw [hf] at hp
            injection hp with hpq
            subst hpq
            rw [hdelta]
            simp [countRefs, hk]
            ring
          · have hmidk : (db.saveProduct
                { prod with viewCount := prod.viewCount + 1 }).findProduct k = some p := by
              rw [hmid k, if_neg hk, hp]
            have hdelta := ih _ k _ p' hmidk hp'
            rw [hdelta]
            simp [countRefs, hk]

theorem validateItems_ok_lookedUp (items : List CreateOrderItemDto) :
    ∀ db : DB, (OrderService.validateItems db items).1 = .ok () →
      lookedUp db items = items := by
  induction items with
  | nil => intro db _; rfl
  | cons item rest ih =>
    intro db hok
    rw [OrderService.validateItems] at hok
    rw [lookedUp]
    cases hf : db.findProduct item.productId with
    | none =>
      rw [ProductService.findById_error hf] at hok
      simp at hok
    | some prod =>
      rw [ProductService.findById_ok hf] at hok ⊢
      dsimp only at hok ⊢
      by_cases h₁ : (!Product.isInStock { prod with viewCount := prod.viewCount + 1 }) = true
      · rw [if_pos h₁] at hok
        simp at hok
      · rw [if_neg h₁] at hok ⊢
        by_cases h₂ : Product.stockQuantity { prod with viewCount := prod.viewCount + 1 }
            < item.quantity
        · rw [if_pos h₂] at hok
          simp at hok
        · rw [if_neg h₂] at hok ⊢
          rw [ih _ hok]

/-- Counterexample for C1 as stated: the failing request has already written
to the products table — the examined product went from viewCount 0 to
viewCount 1 — so the request does not abort before any writes occur. -/
theorem createOrder_stockFailure_viewCount_write :
    (OrderService.create dbB 9 dtoB "N").1 =
        .error (.badRequest "Insufficient stock for B") ∧
    ((OrderService.create dbB 9 dtoB "N").2.findProduct 2).map Product.viewCount = some 1 ∧
    (dbB.findProduct 2).map Product.viewCount = some 0 :=
  ⟨rfl, rfl, rfl⟩

theorem viewErase_fields {p q : Product} (h : viewErase p = viewErase q) :
    p.id = q.id ∧ p.name = q.name ∧ p.price = q.price ∧
    p.stockQuantity = q.stockQuantity ∧ p.status = q.status ∧
    p.salesCount = q.salesCount ∧ p.isActive = q.isActive := by
  cases p
  cases q
  simp only [viewErase, Product.mk.injEq] at h
  simp_all

theorem prodAgree_some {db db' : DB} (h : prodAgree db db') {k : Nat} {p : Product}
    (hp : db.findProduct k = some p) :
    ∃ p', db'.findProduct k = some p' ∧ viewErase p' = viewErase p := by
  have h₂ := h k
  rw [hp] at h₂
  cases hx : db'.findProduct k with
  | none => rw [hx] at h₂; simp at h₂
  | some q =>
    rw [hx] at h₂
    simp only [Option.map_some'] at h₂
    injection h₂ with h₃
    exact ⟨q, rfl, h₃⟩

theorem sumData_append (l₁ l₂ : List OrderItemData) :
    sumData (l₁ ++ l₂) = sumData l₁ + sumData l₂ := by
  induction l₁ with
  | nil => simp [sumData]
  | cons d l ih =>
    rw [List.cons_append, sumData, sumData, ih]
    ring

theorem priceItems_agree (items : List CreateOrderItemDto) :
    ∀ (db : DB) (st : Rat) (acc : List OrderItemData),
      sideAgree db (OrderService.priceItems db st acc items).2 ∧
      prodAgree db (OrderService.priceItems db st acc items).2 := by
  induction items with
  | nil => exact fun db st acc => ⟨sideAgree_refl db, prodAgree_refl db⟩
  | cons item rest ih =>
    intro db st acc
    rw [OrderService.priceItems]
    cases hf : ProductService.findById db item.productId with
    | mk res db₁ =>
      have hside : sideAgree db db₁ := by
        have h₂ := ProductService.findById_sideAgree db item.productId
        rwa [hf] at h₂
      have hprod : prodAgree db db₁ := by
        have h₂ := ProductService.findById_prodAgree db item.productId
        rwa [hf] at h₂
      cases res with
      | error e => exact ⟨hside, hprod⟩
      | ok product =>
        dsimp only
        obtain ⟨s, pr⟩ := ih db₁ _ _
        exact ⟨sideAgree_trans hside s, prodAgree_trans hprod pr⟩

theorem priceItems_ok_result (items : List CreateOrderItemDto) :
    ∀ (db : DB) (st : Rat) (acc : List OrderItemData) (subtotal : Rat)
      (ds : List OrderItemData) (db₂ : DB),
      OrderService.priceItems db st acc items = (.ok (subtotal, ds), db₂) →
      subtotal - sumData ds = st - sumData acc ∧
      ds.map (fun d => (d.productId, d.quantity)) =
        acc.map (fun d => (d.productId, d.quantity)) ++
          items.map (fun i => (i.productId, i.quantity)) := by
  induction items with
  | nil =>
    intro db st acc subtotal ds db₂ h
    rw [OrderService.priceItems] at h
    simp only [Prod.mk.injEq, Except.ok.injEq] at h
    obtain ⟨⟨h₁, h₂⟩, _⟩ := h
    subst h₁
    subst h₂
    simp
  | cons item rest ih =>
    intro db st acc subtotal ds db₂ h
    rw [OrderService.priceItems] at h
    cases hf : ProductService.findById db item.productId with
    | mk res db₁ =>
      rw [hf] at h
      cases res with
      | error e => simp at h
      | ok product =>
        dsimp only at h
        obtain ⟨h₁, h₂⟩ := ih db₁ _ _ subtotal ds db₂ h
        constructor
        · rw [h₁, sumData_append]
          simp only [sumData]
          ring
        · rw [h₂]
          simp

theorem priceItems_ok_viewCount (items : List CreateOrderItemDto) :
    ∀ (db : DB) (st : Rat) (acc : List OrderItemData) (subtotal : Rat)
      (ds : List OrderItemData) (db₂ : DB) (k : Nat) (p p' : Product),
      OrderService.priceItems db st acc items = (.ok (subtotal, ds), db₂) →
      db.findProduct k = some p → db₂.findProduct k = some p' →
      p'.viewCount = p.viewCount + countRefs k items := by
  induction items with
  | nil =>
    intro db st acc subtotal ds db₂ k p p' h hp hp'
    rw [OrderService.priceItems] at h
    simp only [Prod.mk.injEq] at h
    obtain ⟨_, h₂⟩ := h
    subst h₂
    rw [hp] at hp'
    injection hp' with hpp
    subst hpp
    simp [countRefs]
  | cons item rest ih =>
    intro db st acc subtotal ds db₂ k p p' h hp hp'
    rw [OrderService.priceItems] at h
    cases hf : db.findProduct item.productId with
    | none =>
      rw [ProductService.findById_error hf] at h
      simp at h
    | some prod =>
      rw [ProductService.findById_ok hf] at h
      dsimp only at h
      have hmid : ∀ k', (db.saveProduct
          { prod with viewCount := prod.viewCount + 1 }).findProduct k' =
          if item.productId = k' then some { prod with viewCount := prod.viewCount + 1 }
          else db.findProduct k' :=
        fun k' => findProduct_saveProduct_of_found hf
          { prod with viewCount := prod.viewCount + 1 } rfl k'
      by_cases hk : item.productId = k
      · have hmidk : (db.saveProduct
            { prod with viewCount := prod.viewCount + 1 }).findProduct k =
            some { prod with viewCount := prod.viewCount + 1 } := by
          rw [hmid k, if_pos hk]
        have hdelta := ih _ _ _ subtotal ds db₂ k _ p' h hmidk hp'
        rw [hk] at hf
        rw [hf] at hp
        injection hp with hpq
        subst hpq
        rw [hdelta]
        simp only [countRefs, if_pos hk]
        ring
      · have hmidk : (db.saveProduct
            { prod with viewCount := prod.viewCount + 1 }).findProduct k = some p := by
          rw [hmid k, if_neg hk, hp]
        have hdelta := ih _ _ _ subtotal ds db₂ k _ p' h hmidk hp'
        rw [hdelta]
        simp [countRefs, hk]

theorem shape_transfer (ds : List OrderItemData) :
    ∀ (items : List CreateOrderItemDto),
      ds.map (fun d => (d.productId, d.quantity)) =
        items.map (fun i => (i.productId, i.quantity)) →
      ∀ k, qtyData k ds = qtyOrdered k items ∧ countData k ds = countRefs k items := by
  induction ds with
  | nil =>
    intro items h k
    cases items with
    | nil => simp [qtyData, qtyOrdered, countData, countRefs]
    | cons i items => simp at h
  | cons d ds ih =>
    intro items h k
    cases items with
    | nil => simp at h
    | cons i items =>
      simp only [List.map_cons, List.cons.injEq] at h
      obtain ⟨h₁, h₂⟩ := h
      have hpid : d.productId = i.productId := congrArg Prod.fst h₁
      have hqty : d.quantity = i.quantity := congrArg Prod.snd h₁
      obtain ⟨hq, hc⟩ := ih items h₂ k
      constructor
      · rw [qtyData, qtyOrdered, hpid, hqty, hq]
      · rw [countData, countRefs, hpid, hc]

theorem prodAgree_none {db db' : DB} (h : prodAgree db db') {k : Nat}
    (hk : db.findProduct k = none) : db'.findProduct k = none := by
  have h₂ := h k
  rw [hk] at h₂
  cases hx : db'.findProduct k with
  | none => rfl
  | some q => rw [hx] at h₂; simp at h₂

theorem isInStock_of_viewErase {p q : Product} (h : viewErase p = viewErase q) :
    p.isInStock = q.isInStock := by
  obtain ⟨_, _, _, hst, hstat, _, _⟩ := viewErase_fields h
  rw [Product.isInStock, Product.isInStock, hst, hstat]

theorem itemPasses_elim {db : DB} {i : CreateOrderItemDto}
    (h : itemPasses db i = true) :
    ∃ p, db.findProduct i.productId = some p ∧ p.isInStock = true ∧
      ¬ p.stockQuantity < i.quantity := by
  cases hf : db.findProduct i.productId with
  | none => simp [itemPasses, hf] at h
  | some p =>
    simp only [itemPasses, hf, Bool.and_eq_true, decide_eq_true_eq] at h
    exact ⟨p, rfl, h.1, h.2⟩

theorem itemPasses_agree {db db' : DB} (h : prodAgree db db') {i : CreateOrderItemDto}
    (hi : itemPasses db i = true) : itemPasses db' i = true := by
  obtain ⟨p, hp, hin, hq⟩ := itemPasses_elim hi
  obtain ⟨p', hp', hv⟩ := prodAgree_some h hp
  obtain ⟨_, _, _, hst, _, _, _⟩ := viewErase_fields hv
  have hin' : p'.isInStock = true := by
    rw [isInStock_of_viewErase hv, hin]
  simp only [itemPasses, hp', hin', hst, Bool.true_and, decide_eq_true_eq]
  exact hq

theorem validateItems_skip (pre : List CreateOrderItemDto) :
    ∀ db : DB, (∀ i ∈ pre, itemPasses db i = true) →
      ∀ l, ∃ db', OrderService.validateItems db (pre ++ l) =
        OrderService.validateItems db' l ∧ prodAgree db db' := by
  induction pre with
  | nil =>
    intro db _ l
    exact ⟨db, rfl, prodAgree_refl db⟩
  | cons i pre ih =>
    intro db hpass l
    obtain ⟨p, hf, hin, hq⟩ := itemPasses_elim (hpass i (List.mem_cons_self i pre))
    have hbump : Product.isInStock { p with viewCount := p.viewCount + 1 } = true := hin
    have hstep : OrderService.validateItems db ((i :: pre) ++ l) =
        OrderService.validateItems
          (db.saveProduct { p with viewCount := p.viewCount + 1 }) (pre ++ l) := by
      rw [List.cons_append, OrderService.validateItems, ProductService.findById_ok hf]
      dsimp only
      rw [if_neg (by rw [hbump]; simp), if_neg hq]
    have hagree : prodAgree db (db.saveProduct { p with viewCount := p.viewCount + 1 }) := by
      have hh := ProductService.findById_prodAgree db i.productId
      rw [ProductService.findById_ok hf] at hh
      exact hh
    have hpass' : ∀ j ∈ pre, itemPasses
        (db.saveProduct { p with viewCount := p.viewCount + 1 }) j = true :=
      fun j hj => itemPasses_agree hagree (hpass j (List.mem_cons_of_mem i hj))
    obtain ⟨db', heq, hag⟩ := ih _ hpass' l
    exact ⟨db', hstep.trans heq, prodAgree_trans hagree hag⟩

theorem validateItems_failure_at {db : DB} (pre : List CreateOrderItemDto)
    (item : CreateOrderItemDto) (rest : List CreateOrderItemDto)
    (hpass : ∀ i ∈ pre, itemPasses db i = true) :
    (db.findProduct item.productId = none →
      (OrderService.validateItems db (pre ++ item :: rest)).1 =
        .error (.notFound "Product not found")) ∧
    (∀ p, db.findProduct item.productId = some p → p.isInStock = false →
      (OrderService.validateItems db (pre ++ item :: rest)).1 =
        .error (.badRequest ("Product " ++ p.name ++ " is out of stock"))) ∧
    (∀ p, db.findProduct item.productId = some p → p.isInStock = true →
      p.stockQuantity < item.quantity →
      (OrderService.validateItems db (pre ++ item :: rest)).1 =
        .error (.badRequest ("Insufficient stock for " ++ p.name))) := by
  obtain ⟨db', heq, hag⟩ := validateItems_skip pre db hpass (item :: rest)
  refine ⟨?_, ?_, ?_⟩
  · intro hnone
    rw [heq, OrderService.validateItems,
      ProductService.findById_error (prodAgree_none hag hnone)]
  · intro p hp hin
    obtain ⟨p', hp', hv⟩ := prodAgree_some hag hp
    obtain ⟨_, hname, _, _, _, _, _⟩ := viewErase_fields hv
    have hin' : Product.isInStock { p' with viewCount := p'.viewCount + 1 } = false := by
      have hx : Product.isInStock p' = p.isInStock := isInStock_of_viewErase hv
      rw [show Product.isInStock { p' with viewCount := p'.viewCount + 1 } =
        Product.isInStock p' from rfl, hx, hin]
    rw [heq, OrderService.validateItems, ProductService.findById_ok hp']
    dsimp only
    rw [if_pos (by rw [hin']; rfl)]
    dsimp only
    rw [hname]
  · intro p hp hin hlt
    obtain ⟨p', hp', hv⟩ := prodAgree_some hag hp
    obtain ⟨_, hname, _, hst, _, _, _⟩ := viewErase_fields hv
    have hin' : Product.isInStock { p' with viewCount := p'.viewCount + 1 } = true := by
      have hx : Product.isInStock p' = p.isInStock := isInStock_of_viewErase hv
      rw [show Product.isInStock { p' with viewCount := p'.viewCount + 1 } =
        Product.isInStock p' from rfl, hx, hin]
    have hlt' : Product.stockQuantity { p' with viewCount := p'.viewCount + 1 }
        < item.quantity := by
      show p'.stockQuantity < item.quantity
      rw [hst]
      exact hlt
    rw [heq, OrderService.validateItems, ProductService.findById_ok hp']
    dsimp only
    rw [if_neg (by rw [hin']; simp), if_pos hlt']
    dsimp only
    rw [hname]

theorem create_error_frame {db : DB} (uid : Nat) {dto : CreateOrderDto} (onum : String)
    {e : ServiceError}
    (h : (OrderService.validateItems db dto.orderItems).1 = .error e) :
    (OrderService.create db uid dto onum).1 = .error e ∧
    (OrderService.create db uid dto onum).2.orders = db.orders ∧
    (OrderService.create db uid dto onum).2.orderItems = db.orderItems ∧
    (OrderService.create db uid dto onum).2.carts = db.carts := by
  have hpair : OrderService.validateItems db dto.orderItems =
      (.error e, (OrderService.validateItems db dto.orderItems).2) := by
    rw [← h]
  obtain ⟨ho, hi, hc, _, _⟩ := (validateItems_agree dto.orderItems db).1
  rw [create_validate_error hpair]
  exact ⟨rfl, ho, hi, hc⟩

/-- Claim C1 (amended): when any requested line item fails validation — at
any position, whether its product is missing, not in stock, or short of the
requested quantity, the items before it passing their checks (the loop
stops at the first failure) — createOrder raises the validation error and
creates no Order row, no OrderLineItem row, and deletes no cart row; in
particular, when the failing item requests 5 units of an active product
with stock quantity 3, the error is the insufficient-stock error naming
that product.  The request does not abort before all writes: the lookups of
the validation pass have already written viewCount increments (see the
counterexample). -/
theorem createOrder_stockFailure_writesNoOrderRows :
    (∀ (db : DB) (uid : Nat) (dto : CreateOrderDto) (onum : String)
        (pre : List CreateOrderItemDto) (item : CreateOrderItemDto)
        (rest : List CreateOrderItemDto),
      dto.orderItems = pre ++ item :: rest →
      (∀ i ∈ pre, itemPasses db i = true) →
      itemPasses db item = false →
      (∃ e, (OrderService.create db uid dto onum).1 = .error e) ∧
      (OrderService.create db uid dto onum).2.orders = db.orders ∧
      (OrderService.create db uid dto onum).2.orderItems = db.orderItems ∧
      (OrderService.create db uid dto onum).2.carts = db.carts) ∧
    (∀ (db : DB) (uid : Nat) (dto : CreateOrderDto) (onum : String)
        (pre : List CreateOrderItemDto) (item : CreateOrderItemDto)
        (rest : List CreateOrderItemDto) (p : Product),
      dto.orderItems = pre ++ item :: rest →
      (∀ i ∈ pre, itemPasses db i = true) →
      db.findProduct item.productId = some p →
      p.stockQuantity = 3 → p.status = ProductStatus.active → item.quantity = 5 →
      (OrderService.create db uid dto onum).1 =
        .error (.badRequest ("Insufficient stock for " ++ p.name)) ∧
      (OrderService.create db uid dto onum).2.orders = db.orders ∧
      (OrderService.create db uid dto onum).2.orderItems = db.orderItems ∧
      (OrderService.create db uid dto onum).2.carts = db.carts) := by
  constructor
  · intro db uid dto onum pre item rest hitems hpass hfail
    have hfa := validateItems_failure_at pre item rest hpass
    have herr : ∃ e, (OrderService.validateItems db dto.orderItems).1 = .error e := by
      rw [hitems]
      cases hf : db.findProduct item.productId with
      | none => exact ⟨_, hfa.1 hf⟩
      | some p =>
        by_cases hin : p.isInStock = true
        · have hlt : p.stockQuantity < item.quantity := by
            by_contra hnl
            simp [itemPasses, hf, hin, hnl] at hfail
          exact ⟨_, hfa.2.2 p hf hin hlt⟩
        · have hin' : p.isInStock = false := by
            cases hx : p.isInStock
            · rfl
            · exact absurd hx hin
          exact ⟨_, hfa.2.1 p hf hin'⟩
    obtain ⟨e, he⟩ := herr
    obtain ⟨h₁, h₂, h₃, h₄⟩ := create_error_frame uid onum he
    exact ⟨⟨e, h₁⟩, h₂, h₃, h₄⟩
  · intro db uid dto onum pre item rest p hitems hpass hp hstock hstatus hq
    have hin : p.isInStock = true := by
      rw [Product.isInStock, hstock, hstatus]
      decide
    have hlt : p.stockQuantity < item.quantity := by
      rw [hstock, hq]
      decide
    have he : (OrderService.validateItems db dto.orderItems).1 =
        .error (.badRequest ("Insufficient stock for " ++ p.name)) := by
      rw [hitems]
      exact (validateItems_failure_at pre item rest hpass).2.2 p hp hin hlt
    exact create_error_frame uid onum he

/-- Witness for C1: on dbB (product 2, active, stock 3) the request of 5
units fails the stock check of its only item — the general part gives the
abort with orders, order items and carts unchanged, the particular part the
exact insufficient-stock error. -/
theorem createOrder_stockFailure_witness :
    ((∃ e, (OrderService.create dbB 9 dtoB "N").1 = .error e) ∧
      (OrderService.create dbB 9 dtoB "N").2.orders = dbB.orders ∧
      (OrderService.create dbB 9 dtoB "N").2.orderItems = dbB.orderItems ∧
      (OrderService.create dbB 9 dtoB "N").2.carts = dbB.carts) ∧
    (OrderService.create dbB 9 dtoB "N").1 =
      .error (.badRequest ("Insufficient stock for " ++ prodB.name)) :=
  ⟨createOrder_stockFailure_writesNoOrderRows.1 dbB 9 dtoB "N" []
      { productId := 2, quantity := 5, selectedSize := none, selectedColor := none } []
      rfl (by simp) rfl,
   (createOrder_stockFailure_writesNoOrderRows.2 dbB 9 dtoB "N" []
      { productId := 2, quantity := 5, selectedSize := none, selectedColor := none } []
      prodB rfl (by simp) rfl rfl rfl rfl).1⟩

theorem clearCart_carts_filter (db : DB) (uid : Nat) :
    ((CartService.clearCart db uid).carts.filter (fun c => c.userId == uid)) = [] := by
  rw [CartService.clearCart]
  dsimp only
  rw [List.filter_filter]
  apply List.filter_eq_nil_iff.mpr
  intro c _
  simp

theorem OrderService.findById_snd (db : DB) (i : Nat) :
    (OrderService.findById db i).2 = db := by
  rw [OrderService.findById]
  cases db.findOrder i <;> rfl

theorem mkItems_filter_self (ds : List OrderItemData) :
    ∀ oid nid,
      (mkItems oid nid ds).filter (fun oi => oi.orderId == oid) = mkItems oid nid ds := by
  induction ds with
  | nil => intro _ _; rfl
  | cons d ds ih =>
    intro oid nid
    rw [mkItems]
    simp only [List.filter_cons]
    simp only [beq_self_eq_true, if_true, if_pos]
    rw [ih oid (nid + 1)]

theorem sumLineItems_mkItems (ds : List OrderItemData) :
    ∀ oid nid, sumLineItems (mkItems oid nid ds) = sumData ds := by
  induction ds with
  | nil => intro _ _; rfl
  | cons d ds ih =>
    intro oid nid
    rw [mkItems, sumLineItems, sumData, ih oid (nid + 1)]

theorem persistItems_ok_effect (ds : List OrderItemData) :
    ∀ (db : DB) (oid : Nat) (db' : DB),
      OrderService.persistItems db oid ds = (.ok (), db') →
      (db'.orders = db.orders ∧ db'.carts = db.carts ∧
       db'.nextOrderId = db.nextOrderId ∧
       db'.orderItems = db.orderItems ++ mkItems oid db.nextOrderItemId ds) ∧
      ∀ k p p', db.findProduct k = some p → db'.findProduct k = some p' →
        p'.stockQuantity = p.stockQuantity - qtyData k ds ∧
        p'.salesCount = p.salesCount + qtyData k ds ∧
        p'.viewCount = p.viewCount + countData k ds ∧
        (0 ≤ p.stockQuantity → 0 ≤ p'.stockQuantity) := by
  induction ds with
  | nil =>
    intro db oid db' h
    rw [OrderService.persistItems] at h
    simp only [Prod.mk.injEq] at h
    obtain ⟨_, h₂⟩ := h
    subst h₂
    refine ⟨⟨rfl, rfl, rfl, by simp [mkItems]⟩, ?_⟩
    intro k p p' hp hp'
    rw [hp] at hp'
    injection hp' with hpp
    subst hpp
    simp [qtyData, countData]
  | cons d rest ih =>
    intro db oid db' h
    rw [OrderService.persistItems] at h
    generalize hg : ({ db with
        orderItems := db.orderItems ++
          [{ id := db.nextOrderItemId, orderId := oid, productId := d.productId,
             quantity := d.quantity, price := d.price,
             selectedSize := d.selectedSize, selectedColor := d.selectedColor }],
        nextOrderItemId := db.nextOrderItemId + 1 } : DB) = db₁ at h
    have hfp : ∀ kk, db₁.findProduct kk = db.findProduct kk := by
      rw [← hg]; intro kk; rfl
    have hords₁ : db₁.orders = db.orders := by rw [← hg]
    have hcarts₁ : db₁.carts = db.carts := by rw [← hg]
    have hnoid₁ : db₁.nextOrderId = db.nextOrderId := by rw [← hg]
    have hnoii₁ : db₁.nextOrderItemId = db.nextOrderItemId + 1 := by rw [← hg]
    have hitems₁ : db₁.orderItems = db.orderItems ++
        [{ id := db.nextOrderItemId, orderId := oid, productId := d.productId,
           quantity := d.quantity, price := d.price,
           selectedSize := d.selectedSize, selectedColor := d.selectedColor }] := by
      rw [← hg]
    cases hu : ProductService.updateStock db₁ d.productId d.quantity with
    | mk ures db₂ =>
      rw [hu] at h
      cases ures with
      | error e => simp at h
      | ok r =>
        dsimp only at h
        have hu1 : (ProductService.updateStock db₁ d.productId d.quantity).1 = .ok r := by
          rw [hu]
        obtain ⟨p₁, hp₁, hq₁, _, hside, hpt⟩ := updateStock_ok_effect hu1
        rw [hu] at hside hpt
        dsimp only at hside hpt
        rw [hfp d.productId] at hp₁
        obtain ⟨⟨hords, hcarts, hnoid, hitems⟩, heff⟩ := ih db₂ oid db' h
        obtain ⟨ho₂, hi₂, hc₂, hn₂, hm₂⟩ := hside
        refine ⟨⟨?_, ?_, ?_, ?_⟩, ?_⟩
        · rw [hords, ho₂, hords₁]
        · rw [hcarts, hc₂, hcarts₁]
        · rw [hnoid, hn₂, hnoid₁]
        · rw [hitems, hi₂, hm₂, hitems₁, hnoii₁, mkItems, List.append_assoc]
          rfl
        · intro k p p' hp hp'
          by_cases hk : d.productId = k
          · have hp₁k : p₁ = p := by
              rw [hk, hp] at hp₁
              injection hp₁ with hx
              exact hx.symm
            subst hp₁k
            have hmid : db₂.findProduct k = some (stockedRow p₁ d.quantity) := by
              rw [hpt k, if_pos hk]
            obtain ⟨h₁, h₂, h₃, h₄⟩ := heff k _ p' hmid hp'
            rw [stockedRow_stock] at h₁ h₄
            rw [stockedRow_sales] at h₂
            rw [stockedRow_view] at h₃
            refine ⟨?_, ?_, ?_, ?_⟩
            · rw [qtyData, if_pos hk]; omega
            · rw [qtyData, if_pos hk]; omega
            · rw [countData, if_pos hk]; omega
            · intro _
              exact h₄ (by omega)
          · have hmid : db₂.findProduct k = some p := by
              rw [hpt k, if_neg hk, hfp k]
              exact hp
            obtain ⟨h₁, h₂, h₃, h₄⟩ := heff k _ p' hmid hp'
            refine ⟨?_, ?_, ?_, h₄⟩
            · rw [qtyData, if_neg hk]; omega
            · rw [qtyData, if_neg hk]; omega
            · rw [countData, if_neg hk]; omega

theorem create_ok_master {db : DB} {uid : Nat} {dto : CreateOrderDto} {onum : String}
    {o : Order} (hfresh : ∀ od ∈ db.orders, od.id ≠ db.nextOrderId)
    (h : (OrderService.create db uid dto onum).1 = .ok o) :
    ∃ ds : List OrderItemData,
      o = mkOrder db.nextOrderId onum uid (sumData ds) ∧
      ds.map (fun d => (d.productId, d.quantity)) =
        dto.orderItems.map (fun i => (i.productId, i.quantity)) ∧
      (OrderService.create db uid dto onum).2.orders =
        db.orders ++ [mkOrder db.nextOrderId onum uid (sumData ds)] ∧
      (OrderService.create db uid dto onum).2.orderItems =
        db.orderItems ++ mkItems db.nextOrderId db.nextOrderItemId ds ∧
      (OrderService.create db uid dto onum).2.carts =
        db.carts.filter (fun c => !(c.userId == uid)) ∧
      (∀ k p p', db.findProduct k = some p →
        (OrderService.create db uid dto onum).2.findProduct k = some p' →
        p'.stockQuantity = p.stockQuantity - qtyData k ds ∧
        p'.salesCount = p.salesCount + qtyData k ds ∧
        p'.viewCount = p.viewCount + countRefs k dto.orderItems +
          countRefs k dto.orderItems + countData k ds ∧
        (0 ≤ p.stockQuantity → 0 ≤ p'.stockQuantity)) := by
  rw [OrderService.create] at h
  split at h
  next e db₁ hval => exact absurd h (by simp)
  next u db₁ hval =>
  cases u
  split at h
  next e db₂ hpr => exact absurd h (by simp)
  next subtotal ds db₂ hpr =>
  dsimp only at h
  split at h
  next e db₄ hper => exact absurd h (by simp)
  next u₂ db₄ hper =>
  cases u₂
  rw [OrderService.findById] at h
  split at h
  next hfo => exact absurd h (by simp)
  next ord hfo =>
  dsimp only at h
  injection h with ho
  subst ho
  have hside₁ : sideAgree db db₁ := by
    have hh := (validateItems_agree dto.orderItems db).1
    rw [hval] at hh
    exact hh
  have hprod₁ : prodAgree db db₁ := by
    have hh := (validateItems_agree dto.orderItems db).2
    rw [hval] at hh
    exact hh
  have hok₁ : (OrderService.validateItems db dto.orderItems).1 = .ok () := by rw [hval]
  have hlook : lookedUp db dto.orderItems = dto.orderItems :=
    validateItems_ok_lookedUp _ _ hok₁
  have hside₂ : sideAgree db₁ db₂ := by
    have hh := (priceItems_agree dto.orderItems db₁ 0 []).1
    rw [hpr] at hh
    exact hh
  have hprod₂ : prodAgree db₁ db₂ := by
    have hh := (priceItems_agree dto.orderItems db₁ 0 []).2
    rw [hpr] at hh
    exact hh
  obtain ⟨hsubeq, hshape⟩ := priceItems_ok_result dto.orderItems db₁ 0 [] subtotal ds db₂ hpr
  have hsub : subtotal = sumData ds := by
    simp only [sumData, List.map_nil] at hsubeq
    linarith
  have hshape' : ds.map (fun d => (d.productId, d.quantity)) =
      dto.orderItems.map (fun i => (i.productId, i.quantity)) := by
    simpa using hshape
  obtain ⟨⟨hords₄, hcarts₄, hnoid₄, hitems₄⟩, heff₄⟩ :=
    persistItems_ok_effect ds _ _ db₄ hper
  have hords₄b : db₄.orders = db₂.orders ++ [mkOrder db₂.nextOrderId onum uid subtotal] :=
    hords₄
  have hcarts₄b : db₄.carts = db₂.carts := hcarts₄
  have hitems₄b : db₄.orderItems =
      db₂.orderItems ++ mkItems db₂.nextOrderId db₂.nextOrderItemId ds := hitems₄
  have hcreq : OrderService.create db uid dto onum =
      OrderService.findById (CartService.clearCart db₄ uid) db₂.nextOrderId := by
    rw [OrderService.create, hval]
    dsimp only
    rw [hpr]
    dsimp only
    rw [hper]
    dsimp only
    rw [mkOrder_id]
  have hc2 : (OrderService.create db uid dto onum).2 = CartService.clearCart db₄ uid := by
    rw [hcreq, OrderService.findById_snd]
  have hoid₂ : db₂.nextOrderId = db.nextOrderId := by
    rw [hside₂.2.2.2.1, hside₁.2.2.2.1]
  have hniid₂ : db₂.nextOrderItemId = db.nextOrderItemId := by
    rw [hside₂.2.2.2.2, hside₁.2.2.2.2]
  have hords₂ : db₂.orders = db.orders := by
    rw [hside₂.1, hside₁.1]
  have hitems₂ : db₂.orderItems = db.orderItems := by
    rw [hside₂.2.1, hside₁.2.1]
  have hcarts₂ : db₂.carts = db.carts := by
    rw [hside₂.2.2.1, hside₁.2.2.1]
  have hfind : db₄.findOrder db₂.nextOrderId =
      some (mkOrder db₂.nextOrderId onum uid subtotal) := by
    rw [DB.findOrder, findRow, hords₄b, List.find?_append]
    have hnone : db₂.orders.find? (fun y => y.id == db₂.nextOrderId) = none := by
      apply List.find?_eq_none.mpr
      intro od hod
      rw [hords₂] at hod
      rw [hoid₂]
      simpa using hfresh od hod
    rw [hnone]
    simp [mkOrder]
  have hord : ord = mkOrder db₂.nextOrderId onum uid subtotal := by
    have hfo₂ : db₄.findOrder db₂.nextOrderId = some ord := hfo
    rw [hfind] at hfo₂
    injection hfo₂ with hx
    exact hx.symm
  refine ⟨ds, ?_, hshape', ?_, ?_, ?_, ?_⟩
  · rw [hord, hoid₂, hsub]
  · rw [hc2]
    have hcc : (CartService.clearCart db₄ uid).orders = db₄.orders := rfl
    rw [hcc, hords₄b, hords₂, hoid₂, hsub]
  · rw [hc2]
    have hcc : (CartService.clearCart db₄ uid).orderItems = db₄.orderItems := rfl
    rw [hcc, hitems₄b, hitems₂, hoid₂, hniid₂]
  · rw [hc2]
    have hcc : (CartService.clearCart db₄ uid).carts =
        db₄.carts.filter (fun c => !(c.userId == uid)) := rfl
    rw [hcc, hcarts₄b, hcarts₂]
  · intro k p p' hp hp'
    obtain ⟨p₁, hp₁, hv₁⟩ := prodAgree_some hprod₁ hp
    obtain ⟨p₂, hp₂, hv₂⟩ := prodAgree_some hprod₂ hp₁
    have hw₁ : p₁.viewCount = p.viewCount + countRefs k dto.orderItems := by
      have hh := validateItems_viewCount dto.orderItems db k p p₁ hp
        (by rw [hval]; exact hp₁)
      rwa [hlook] at hh
    have hw₂ : p₂.viewCount = p₁.viewCount + countRefs k dto.orderItems :=
      priceItems_ok_viewCount dto.orderItems db₁ 0 [] subtotal ds db₂ k p₁ p₂ hpr hp₁ hp₂
    have hp₄' : db₄.findProduct k = some p' := by
      rw [hc2] at hp'
      exact hp'
    obtain ⟨hs₄, hl₄, hw₄, hn₄⟩ := heff₄ k p₂ p' hp₂ hp₄'
    obtain ⟨_, _, _, hst₁, _, hsl₁, _⟩ := viewErase_fields hv₁
    obtain ⟨_, _, _, hst₂, _, hsl₂, _⟩ := viewErase_fields hv₂
    refine ⟨by omega, by omega, by omega, ?_⟩
    intro hnn
    exact hn₄ (by omega)

/-- Claim C2: after every successful createOrder, each product referenced by
the order loses exactly the total ordered quantity from stockQuantity and
gains exactly that quantity on salesCount; a non-negative stock stays
non-negative because every decrement is guarded by the stock check of
updateStock. -/
theorem createOrder_ok_stock_sales (db : DB) (uid : Nat) (dto : CreateOrderDto)
    (onum : String) (o : Order) (k : Nat) (p p' : Product)
    (hfresh : ∀ od ∈ db.orders, od.id ≠ db.nextOrderId)
    (h : (OrderService.create db uid dto onum).1 = .ok o)
    (hp : db.findProduct k = some p)
    (hp' : (OrderService.create db uid dto onum).2.findProduct k = some p') :
    p'.stockQuantity = p.stockQuantity - qtyOrdered k dto.orderItems ∧
    p'.salesCount = p.salesCount + qtyOrdered k dto.orderItems ∧
    (0 ≤ p.stockQuantity → 0 ≤ p'.stockQuantity) := by
  obtain ⟨ds, _, hshape, _, _, _, heff⟩ := create_ok_master hfresh h
  obtain ⟨h₁, h₂, _, h₄⟩ := heff k p p' hp hp'
  obtain ⟨hq, _⟩ := shape_transfer ds dto.orderItems hshape k
  exact ⟨by rw [h₁, hq], by rw [h₂, hq], h₄⟩

/-- Witness for C2: the scenario of spec section 8 — product with stock 10,
price 20.00, ordered quantity 3: stock becomes 7 and the sales counter
becomes 3. -/
theorem createOrder_ok_stock_sales_witness :
    prodA7.stockQuantity = prodA.stockQuantity - qtyOrdered 1 dtoA.orderItems ∧
    prodA7.salesCount = prodA.salesCount + qtyOrdered 1 dtoA.orderItems ∧
    (0 ≤ prodA.stockQuantity → 0 ≤ prodA7.stockQuantity) :=
  createOrder_ok_stock_sales dbA 7 dtoA "N" (mkOrder 100 "N" 7 60) 1 prodA prodA7
    (by simp [dbA])
    (by norm_num [OrderService.create, OrderService.validateItems, OrderService.priceItems,
      OrderService.persistItems, OrderService.findById, ProductService.findById,
      ProductService.updateStock, CartService.clearCart, DB.findProduct, DB.saveProduct,
      DB.findOrder, findRow, saveRow, Product.isInStock, mkOrder, dbA, dtoA, prodA,
      List.find?, List.filter])
    rfl
    (by norm_num [OrderService.create, OrderService.validateItems, OrderService.priceItems,
      OrderService.persistItems, OrderService.findById, ProductService.findById,
      ProductService.updateStock, CartService.clearCart, DB.findProduct, DB.saveProduct,
      DB.findOrder, findRow, saveRow, Product.isInStock, mkOrder, dbA, dtoA, prodA, prodA7,
      List.find?, List.filter])

/-- Claim C3: for every order at creation time, the snapshot prices times
quantities of its line items sum to the persisted subtotal, and the
persisted totalAmount is subtotal plus shippingCost plus taxAmount. -/
theorem createOrder_ok_subtotal_total (db : DB) (uid : Nat) (dto : CreateOrderDto)
    (onum : String) (o : Order)
    (hfresh : ∀ od ∈ db.orders, od.id ≠ db.nextOrderId)
    (hfreshItems : ∀ oi ∈ db.orderItems, oi.orderId ≠ db.nextOrderId)
    (h : (OrderService.create db uid dto onum).1 = .ok o) :
    sumLineItems ((OrderService.create db uid dto onum).2.orderItems.filter
        (fun oi => oi.orderId == o.id)) = o.subtotal ∧
    o.totalAmount = o.subtotal + o.shippingCost + o.taxAmount := by
  obtain ⟨ds, ho, _, _, hitems, _, _⟩ := create_ok_master hfresh h
  constructor
  · rw [hitems, ho]
    simp only [mkOrder_id, mkOrder_subtotal]
    rw [List.filter_append]
    have hnil : db.orderItems.filter (fun oi => oi.orderId == db.nextOrderId) = [] := by
      apply List.filter_eq_nil_iff.mpr
      intro oi hoi
      simpa using hfreshItems oi hoi
    rw [hnil, mkItems_filter_self, List.nil_append, sumLineItems_mkItems]
  · rw [ho]
    exact mkOrder_total db.nextOrderId onum uid (sumData ds)

/-- Witness for C3: the concrete successful order on dbA (subtotal 60,
shipping 10, tax 4.80, total 74.80). -/
theorem createOrder_ok_subtotal_total_witness :
    sumLineItems ((OrderService.create dbA 7 dtoA "N").2.orderItems.filter
        (fun oi => oi.orderId == (mkOrder 100 "N" 7 60).id)) = (mkOrder 100 "N" 7 60).subtotal ∧
    (mkOrder 100 "N" 7 60).totalAmount = (mkOrder 100 "N" 7 60).subtotal +
      (mkOrder 100 "N" 7 60).shippingCost + (mkOrder 100 "N" 7 60).taxAmount :=
  createOrder_ok_subtotal_total dbA 7 dtoA "N" (mkOrder 100 "N" 7 60)
    (by simp [dbA]) (by simp [dbA])
    (by norm_num [OrderService.create, OrderService.validateItems, OrderService.priceItems,
      OrderService.persistItems, OrderService.findById, ProductService.findById,
      ProductService.updateStock, CartService.clearCart, DB.findProduct, DB.saveProduct,
      DB.findOrder, findRow, saveRow, Product.isInStock, mkOrder, dbA, dtoA, prodA,
      List.find?, List.filter])

/-- Claim C4 (amended): the monetary fields of a created order are persisted
with no rounding at all: taxAmount is exactly subtotal times 0.08 (which can
carry more than 2 decimal places) and totalAmount is the exact sum of
subtotal, shippingCost and taxAmount.  In this exact-arithmetic model the
subtotal is the exact sum of price times quantity; the JS implementation
performs the same operations in binary floating point. -/
theorem createOrder_tax_exact (db : DB) (uid : Nat) (dto : CreateOrderDto)
    (onum : String) (o : Order)
    (hfresh : ∀ od ∈ db.orders, od.id ≠ db.nextOrderId)
    (h : (OrderService.create db uid dto onum).1 = .ok o) :
    o.taxAmount = o.subtotal * (8 / 100) ∧
    o.totalAmount = o.subtotal + o.shippingCost + o.taxAmount := by
  obtain ⟨ds, ho, _⟩ := create_ok_master hfresh h
  subst ho
  exact ⟨by rw [mkOrder_tax, mkOrder_subtotal],
    mkOrder_total db.nextOrderId onum uid (sumData ds)⟩

/-- Witness for C4 (amended): the order over the product priced 0.13 has
taxAmount exactly 0.0104. -/
theorem createOrder_tax_exact_witness :
    (mkOrder 1 "N" 7 (13 / 100)).taxAmount = (mkOrder 1 "N" 7 (13 / 100)).subtotal * (8 / 100) ∧
    (mkOrder 1 "N" 7 (13 / 100)).totalAmount = (mkOrder 1 "N" 7 (13 / 100)).subtotal +
      (mkOrder 1 "N" 7 (13 / 100)).shippingCost + (mkOrder 1 "N" 7 (13 / 100)).taxAmount :=
  createOrder_tax_exact dbD 7 dtoD "N" (mkOrder 1 "N" 7 (13 / 100))
    (by simp [dbD])
    (by norm_num [OrderService.create, OrderService.validateItems, OrderService.priceItems,
      OrderService.persistItems, OrderService.findById, ProductService.findById,
      ProductService.updateStock, CartService.clearCart, DB.findProduct, DB.saveProduct,
      DB.findOrder, findRow, saveRow, Product.isInStock, mkOrder, dbD, dtoD, prodD,
      List.find?, List.filter])

/-- Counterexample for C4 as stated: on the order over the product priced
0.13 the persisted taxAmount is 0.0104, while rounding 8 percent of the
subtotal to 2 decimals would give 0.01 — the computed monetary fields are
not rounded to 2 decimal places. -/
theorem createOrder_tax_not_rounded :
    (OrderService.create dbD 7 dtoD "N").1 = .ok (mkOrder 1 "N" 7 (13 / 100)) ∧
    (mkOrder 1 "N" 7 (13 / 100)).taxAmount = 13 / 1250 ∧
    round2 (13 / 1250) = 1 / 100 ∧
    ((13 : Rat) / 1250) ≠ 1 / 100 := by
  refine ⟨?_, ?_, ?_, ?_⟩
  · norm_num [OrderService.create, OrderService.validateItems, OrderService.priceItems,
      OrderService.persistItems, OrderService.findById, ProductService.findById,
      ProductService.updateStock, CartService.clearCart, DB.findProduct, DB.saveProduct,
      DB.findOrder, findRow, saveRow, Product.isInStock, mkOrder, dbD, dtoD, prodD,
      List.find?, List.filter]
  · rw [mkOrder_tax]
    norm_num
  · rw [round2]
    norm_num
  · norm_num

/-- Claim C5: for every created order, shippingCost is 0 exactly when the
subtotal is strictly greater than 100.00 and 10.00 otherwise. -/
theorem createOrder_shipping_policy (db : DB) (uid : Nat) (dto : CreateOrderDto)
    (onum : String) (o : Order)
    (hfresh : ∀ od ∈ db.orders, od.id ≠ db.nextOrderId)
    (h : (OrderService.create db uid dto onum).1 = .ok o) :
    o.shippingCost = if o.subtotal > 100 then 0 else 10 := by
  obtain ⟨ds, ho, _⟩ := create_ok_master hfresh h
  subst ho
  rw [mkOrder_shipping, mkOrder_subtotal]

/-- Witness for C5: the boundary — a subtotal of exactly 100.00 ships for
10.00, a subtotal of 100.01 ships for 0. -/
theorem createOrder_shipping_policy_witness :
    (mkOrder 1 "N" 7 100).shippingCost =
      (if (mkOrder 1 "N" 7 100).subtotal > 100 then 0 else 10) ∧
    (mkOrder 1 "N" 7 (10001 / 100)).shippingCost =
      (if (mkOrder 1 "N" 7 (10001 / 100)).subtotal > 100 then 0 else 10) ∧
    (mkOrder 1 "N" 7 100).shippingCost = 10 ∧
    (mkOrder 1 "N" 7 (10001 / 100)).shippingCost = 0 :=
  ⟨createOrder_shipping_policy dbE 7 dtoE "N" (mkOrder 1 "N" 7 100)
      (by simp [dbE])
      (by norm_num [OrderService.create, OrderService.validateItems, OrderService.priceItems,
        OrderService.persistItems, OrderService.findById, ProductService.findById,
        ProductService.updateStock, CartService.clearCart, DB.findProduct, DB.saveProduct,
        DB.findOrder, findRow, saveRow, Product.isInStock, mkOrder, dbE, dtoE, prodE,
        List.find?, List.filter]),
   createOrder_shipping_policy dbF 7 dtoF "N" (mkOrder 1 "N" 7 (10001 / 100))
      (by simp [dbF])
      (by norm_num [OrderService.create, OrderService.validateItems, OrderService.priceItems,
        OrderService.persistItems, OrderService.findById, ProductService.findById,
        ProductService.updateStock, CartService.clearCart, DB.findProduct, DB.saveProduct,
        DB.findOrder, findRow, saveRow, Product.isInStock, mkOrder, dbF, dtoF, prodF,
        List.find?, List.filter]),
   by rw [mkOrder_shipping]; norm_num,
   by rw [mkOrder_shipping]; norm_num⟩

/-- Claim C8: every successful createOrder removes all cart rows of the
purchasing user — whatever products they reference — so the cart is empty
immediately after creation. -/
theorem createOrder_ok_clears_cart (db : DB) (uid : Nat) (dto : CreateOrderDto)
    (onum : String) (o : Order)
    (hfresh : ∀ od ∈ db.orders, od.id ≠ db.nextOrderId)
    (h : (OrderService.create db uid dto onum).1 = .ok o) :
    (OrderService.create db uid dto onum).2.carts.filter (fun c => c.userId == uid) = [] := by
  obtain ⟨ds, _, _, _, _, hcarts, _⟩ := create_ok_master hfresh h
  rw [hcarts, List.filter_filter]
  apply List.filter_eq_nil_iff.mpr
  intro c _
  simp

/-- Witness for C8: on dbA the user 7 has two cart rows (one of them for a
product not being ordered); after the successful order the cart of user 7 is
empty. -/
theorem createOrder_ok_clears_cart_witness :
    (OrderService.create dbA 7 dtoA "N").2.carts.filter (fun c => c.userId == 7) = [] :=
  createOrder_ok_clears_cart dbA 7 dtoA "N" (mkOrder 100 "N" 7 60)
    (by simp [dbA])
    (by norm_num [OrderService.create, OrderService.validateItems, OrderService.priceItems,
      OrderService.persistItems, OrderService.findById, ProductService.findById,
      ProductService.updateStock, CartService.clearCart, DB.findProduct, DB.saveProduct,
      DB.findOrder, findRow, saveRow, Product.isInStock, mkOrder, dbA, dtoA, prodA,
      List.find?, List.filter])

theorem create_first_item_not_in_stock {db : DB} {uid : Nat} {dto : CreateOrderDto}
    {onum : String} {item : CreateOrderItemDto} {rest : List CreateOrderItemDto} {p : Product}
    (hitems : dto.orderItems = item :: rest)
    (hp : db.findProduct item.productId = some p)
    (hin : p.isInStock = false) :
    (OrderService.create db uid dto onum).1 =
      .error (.badRequest ("Product " ++ p.name ++ " is out of stock")) := by
  have h₁ : (!Product.isInStock { p with viewCount := p.viewCount + 1 }) = true := by
    have h₂ : Product.isInStock { p with viewCount := p.viewCount + 1 } = p.isInStock := rfl
    rw [h₂, hin]
    rfl
  have hval : OrderService.validateItems db dto.orderItems =
      (.error (.badRequest ("Product " ++ p.name ++ " is out of stock")),
       db.saveProduct { p with viewCount := p.viewCount + 1 }) := by
    rw [hitems, OrderService.validateItems, ProductService.findById_ok hp]
    dsimp only
    rw [if_pos h₁]
  rw [create_validate_error hval]

/-- Claim C6 (amended): for every requested line item of createOrder whose
preceding items pass their validation checks (the loop fails fast on the
first failure), a productId that matches no product row fails the request
with the NOT_FOUND error, but an existing product that is not available
(inactive status or zero stock, so isInStock is false) fails it with the
BAD_REQUEST out-of-stock error, not NOT_FOUND; the boolean isActive column
is not consulted at all. -/
theorem createOrder_product_missing_or_unavailable (db : DB) (uid : Nat)
    (dto : CreateOrderDto) (onum : String) (pre : List CreateOrderItemDto)
    (item : CreateOrderItemDto) (rest : List CreateOrderItemDto)
    (hitems : dto.orderItems = pre ++ item :: rest)
    (hpass : ∀ i ∈ pre, itemPasses db i = true) :
    (db.findProduct item.productId = none →
      (OrderService.create db uid dto onum).1 = .error (.notFound "Product not found")) ∧
    (∀ p, db.findProduct item.productId = some p → p.isInStock = false →
      (OrderService.create db uid dto onum).1 =
        .error (.badRequest ("Product " ++ p.name ++ " is out of stock"))) := by
  have hfa := validateItems_failure_at pre item rest hpass
  constructor
  · intro hnone
    have he : (OrderService.validateItems db dto.orderItems).1 =
        .error (.notFound "Product not found") := by
      rw [hitems]
      exact hfa.1 hnone
    exact (create_error_frame uid onum he).1
  · intro p hp hin
    have he : (OrderService.validateItems db dto.orderItems).1 =
        .error (.badRequest ("Product " ++ p.name ++ " is out of stock")) := by
      rw [hitems]
      exact hfa.2.1 p hp hin
    exact (create_error_frame uid onum he).1

/-- Witness for C6 (amended): on dbBC the first item (1 unit of product 2,
active, stock 3) passes validation; a second item referencing the inactive
product 3 fails the request with the out-of-stock BAD_REQUEST, and a second
item referencing the absent product 99 fails it with NOT_FOUND. -/
theorem createOrder_product_missing_or_unavailable_witness :
    dbBC.findProduct 3 = some prodC ∧ prodC.isInStock = false ∧
    (OrderService.create dbBC 7 dtoBC "N").1 =
      .error (.badRequest ("Product " ++ prodC.name ++ " is out of stock")) ∧
    dbBC.findProduct 99 = none ∧
    (OrderService.create dbBC 7 dtoBM "N").1 = .error (.notFound "Product not found") :=
  ⟨rfl, rfl,
   (createOrder_product_missing_or_unavailable dbBC 7 dtoBC "N"
      [{ productId := 2, quantity := 1, selectedSize := none, selectedColor := none }]
      { productId := 3, quantity := 1, selectedSize := none, selectedColor := none } []
      rfl (by intro i hi; simp at hi; subst hi; rfl)).2 prodC rfl rfl,
   rfl,
   (createOrder_product_missing_or_unavailable dbBC 7 dtoBM "N"
      [{ productId := 2, quantity := 1, selectedSize := none, selectedColor := none }]
      { productId := 99, quantity := 1, selectedSize := none, selectedColor := none } []
      rfl (by intro i hi; simp at hi; subst hi; rfl)).1 rfl⟩

/-- Counterexample for C6 as stated: ordering an existing product whose
status is inactive fails with the BAD_REQUEST out-of-stock error, not with a
NOT_FOUND error. -/
theorem createOrder_inactive_not_notFound :
    (OrderService.create dbC 7 dtoC "N").1 =
      .error (.badRequest "Product C is out of stock") ∧
    (OrderService.create dbC 7 dtoC "N").1 ≠ .error (.notFound "Product not found") := by
  constructor
  · rfl
  · decide

/-- Claim C9 (amended): every ProductService.findById on an existing product
increments the persisted viewCount by 1 (the read is also a write); a
successful createOrder therefore increments each ordered product's viewCount
by exactly THREE per line item referencing it — the validation lookup, the
pricing lookup, and the lookup inside updateStock — not two; and a
createOrder whose validation fails has already incremented viewCount once
per examined item, the item that failed its stock check included (lookedUp
is the examined prefix). -/
theorem viewCount_lookup_side_effects :
    (∀ (db : DB) (k : Nat) (p : Product), db.findProduct k = some p →
      (ProductService.findById db k).1 = .ok { p with viewCount := p.viewCount + 1 } ∧
      (ProductService.findById db k).2.findProduct k =
        some { p with viewCount := p.viewCount + 1 }) ∧
    (∀ (db : DB) (uid : Nat) (dto : CreateOrderDto) (onum : String) (o : Order)
        (k : Nat) (p p' : Product),
      (∀ od ∈ db.orders, od.id ≠ db.nextOrderId) →
      (OrderService.create db uid dto onum).1 = .ok o →
      db.findProduct k = some p →
      (OrderService.create db uid dto onum).2.findProduct k = some p' →
      p'.viewCount = p.viewCount + 3 * countRefs k dto.orderItems) ∧
    (∀ (db : DB) (items : List CreateOrderItemDto) (k : Nat) (p p' : Product),
      db.findProduct k = some p →
      (OrderService.validateItems db items).2.findProduct k = some p' →
      p'.viewCount = p.viewCount + countRefs k (lookedUp db items)) := by
  refine ⟨?_, ?_, ?_⟩
  · intro db k p hp
    rw [ProductService.findById_ok hp]
    refine ⟨rfl, ?_⟩
    dsimp only
    rw [findProduct_saveProduct_of_found hp { p with viewCount := p.viewCount + 1 } rfl k]
    simp
  · intro db uid dto onum o k p p' hfresh h hp hp'
    obtain ⟨ds, _, hshape, _, _, _, heff⟩ := create_ok_master hfresh h
    obtain ⟨_, _, h₃, _⟩ := heff k p p' hp hp'
    obtain ⟨_, hc⟩ := shape_transfer ds dto.orderItems hshape k
    omega
  · intro db items k p p' hp hp'
    exact validateItems_viewCount items db k p p' hp hp'

/-- Counterexample for C9 as stated: a successful single-line-item order
takes the product from viewCount 0 to viewCount 3, not to 0 + 2 per line
item — updateStock performs a third findById lookup. -/
theorem createOrder_viewCount_not_two :
    (OrderService.create dbA 7 dtoA "N").1 = .ok (mkOrder 100 "N" 7 60) ∧
    ((OrderService.create dbA 7 dtoA "N").2.findProduct 1).map Product.viewCount = some 3 ∧
    (dbA.findProduct 1).map Product.viewCount = some 0 ∧
    countRefs 1 dtoA.orderItems = 1 ∧
    ((3 : Int) ≠ 0 + 2 * 1) := by
  refine ⟨?_, ?_, rfl, rfl, by decide⟩
  · norm_num [OrderService.create, OrderService.validateItems, OrderService.priceItems,
      OrderService.persistItems, OrderService.findById, ProductService.findById,
      ProductService.updateStock, CartService.clearCart, DB.findProduct, DB.saveProduct,
      DB.findOrder, findRow, saveRow, Product.isInStock, mkOrder, dbA, dtoA, prodA,
      List.find?, List.filter]
  · norm_num [OrderService.create, OrderService.validateItems, OrderService.priceItems,
      OrderService.persistItems, OrderService.findById, ProductService.findById,
      ProductService.updateStock, CartService.clearCart, DB.findProduct, DB.saveProduct,
      DB.findOrder, findRow, saveRow, Product.isInStock, mkOrder, dbA, dtoA, prodA,
      List.find?, List.filter]

theorem restoreItems_total (items : List OrderItem) :
    ∀ db : DB, (∀ oi ∈ items, (db.findProduct oi.productId).isSome) →
      (OrderService.restoreItems db items).1 = .ok () ∧
      sideAgree db (OrderService.restoreItems db items).2 ∧
      (∀ k, ((OrderService.restoreItems db items).2.findProduct k).isSome =
        (db.findProduct k).isSome) ∧
      (∀ k p p', db.findProduct k = some p →
        (OrderService.restoreItems db items).2.findProduct k = some p' →
        p'.stockQuantity = p.stockQuantity + qtyItems k items ∧
        p'.salesCount = p.salesCount - qtyItems k items ∧
        p'.status = p.status) := by
  induction items with
  | nil =>
    intro db _
    refine ⟨rfl, sideAgree_refl db, fun k => rfl, ?_⟩
    intro k p p' hp hp'
    rw [OrderService.restoreItems] at hp'
    rw [hp] at hp'
    injection hp' with hpp
    subst hpp
    simp [qtyItems]
  | cons oi rest ih =>
    intro db hex
    cases hf : db.findProduct oi.productId with
    | none =>
      have hexh := hex oi (List.mem_cons_self oi rest)
      rw [hf] at hexh
      simp at hexh
    | some prod =>
      have hfound₁ : (db.saveProduct { prod with viewCount := prod.viewCount + 1 }).findProduct
          oi.productId = some { prod with viewCount := prod.viewCount + 1 } := by
        rw [findProduct_saveProduct_of_found hf
          { prod with viewCount := prod.viewCount + 1 } rfl oi.productId]
        rw [if_pos rfl]
      set dbS := ((db.saveProduct { prod with viewCount := prod.viewCount + 1 }).saveProduct
          { prod with viewCount := prod.viewCount + 1 + 1 }).saveProduct
          (restoredRow prod oi.quantity) with hdbS
      have hstep : OrderService.restoreItems db (oi :: rest) =
          OrderService.restoreItems dbS rest := by
        rw [OrderService.restoreItems, ProductService.findById_ok hf]
        dsimp only
        rw [ProductService.update_ok
          { id := prod.id, name := prod.name, price := prod.price,
            stockQuantity := prod.stockQuantity + oi.quantity,
            status := prod.status, viewCount := prod.viewCount + 1,
            salesCount := prod.salesCount - oi.quantity,
            isActive := prod.isActive } hfound₁]
        dsimp only
        rw [hdbS, restoredRow]
      have hfound₂ : ((db.saveProduct { prod with viewCount := prod.viewCount + 1 }).saveProduct
          { prod with viewCount := prod.viewCount + 1 + 1 }).findProduct oi.productId =
          some { prod with viewCount := prod.viewCount + 1 + 1 } := by
        rw [findProduct_saveProduct_of_found hfound₁
          { prod with viewCount := prod.viewCount + 1 + 1 } rfl oi.productId]
        rw [if_pos rfl]
      have hsfp : ∀ k, dbS.findProduct k =
          if oi.productId = k then some (restoredRow prod oi.quantity)
          else db.findProduct k := by
        intro k
        rw [hdbS]
        rw [findProduct_saveProduct_of_found hfound₂ (restoredRow prod oi.quantity) rfl k]
        by_cases hk : oi.productId = k
        · rw [if_pos hk, if_pos hk]
        · rw [if_neg hk, if_neg hk,
            findProduct_saveProduct_of_found hfound₁
              { prod with viewCount := prod.viewCount + 1 + 1 } rfl k, if_neg hk,
            findProduct_saveProduct_of_found hf
              { prod with viewCount := prod.viewCount + 1 } rfl k, if_neg hk]
      have hex' : ∀ oj ∈ rest, ((dbS.findProduct oj.productId).isSome) := by
        intro oj hoj
        rw [hsfp oj.productId]
        by_cases hk : oi.productId = oj.productId
        · rw [if_pos hk]; rfl
        · rw [if_neg hk]
          exact hex oj (List.mem_cons_of_mem oi hoj)
      obtain ⟨hok, hside, hsome, heff⟩ := ih dbS hex'
      rw [hstep]
      refine ⟨hok, ?_, ?_, ?_⟩
      · refine sideAgree_trans ?_ hside
        rw [hdbS]
        exact sideAgree_trans (saveProduct_sideAgree _ _)
          (sideAgree_trans (saveProduct_sideAgree _ _) (saveProduct_sideAgree _ _))
      · intro k
        rw [hsome k, hsfp k]
        by_cases hk : oi.productId = k
        · rw [if_pos hk, ← hk, hf]
          rfl
        · rw [if_neg hk]
      · intro k p p' hp hp'
        by_cases hk : oi.productId = k
        · have hpprod : prod = p := by
            rw [hk] at hf
            rw [hp] at hf
            injection hf with hx
            exact hx.symm
          subst hpprod
          have hmid : dbS.findProduct k = some (restoredRow prod oi.quantity) := by
            rw [hsfp k, if_pos hk]
          obtain ⟨h₁, h₂, h₃⟩ := heff k (restoredRow prod oi.quantity) p' hmid hp'
          simp only [restoredRow] at h₁ h₂ h₃
          refine ⟨?_, ?_, ?_⟩
          · rw [qtyItems, if_pos hk]; omega
          · rw [qtyItems, if_pos hk]; omega
          · exact h₃
        · have hmid : dbS.findProduct k = some p := by
            rw [hsfp k, if_neg hk]
            exact hp
          obtain ⟨h₁, h₂, h₃⟩ := heff k p p' hmid hp'
          refine ⟨?_, ?_, h₃⟩
          · rw [qtyItems, if_neg hk]; omega
          · rw [qtyItems, if_neg hk]; omega

theorem cancelOrder_reject {db : DB} {oid : Nat} {order : Order}
    (hord : db.findOrder oid = some order)
    (hstat : order.status = OrderStatus.delivered ∨ order.status = OrderStatus.cancelled) :
    OrderService.cancelOrder db oid = (.error (.badRequest "Cannot cancel this order"), db) := by
  rw [OrderService.cancelOrder, OrderService.findById, hord]
  dsimp only
  rw [if_pos hstat]

theorem cancelOrder_ok_state (db : DB) (oid : Nat) (order : Order)
    (hord : db.findOrder oid = some order)
    (hstat : ¬(order.status = OrderStatus.delivered ∨ order.status = OrderStatus.cancelled))
    (hex : ∀ oi ∈ db.orderItems.filter (fun oi => oi.orderId == oid),
      (db.findProduct oi.productId).isSome) :
    (OrderService.cancelOrder db oid).1 = .ok { order with status := OrderStatus.cancelled } ∧
    (OrderService.cancelOrder db oid).2.findOrder oid =
      some { order with status := OrderStatus.cancelled } ∧
    (OrderService.cancelOrder db oid).2.orderItems = db.orderItems ∧
    (OrderService.cancelOrder db oid).2.carts = db.carts ∧
    (∀ k p p', db.findProduct k = some p →
      (OrderService.cancelOrder db oid).2.findProduct k = some p' →
      p'.stockQuantity = p.stockQuantity +
        qtyItems k (db.orderItems.filter (fun oi => oi.orderId == oid)) ∧
      p'.salesCount = p.salesCount -
        qtyItems k (db.orderItems.filter (fun oi => oi.orderId == oid)) ∧
      p'.status = p.status) := by
  obtain ⟨hok, hside, _, heff⟩ :=
    restoreItems_total (db.orderItems.filter (fun oi => oi.orderId == oid)) db hex
  have hre : OrderService.restoreItems db (db.orderItems.filter (fun oi => oi.orderId == oid)) =
      (.ok (), (OrderService.restoreItems db
        (db.orderItems.filter (fun oi => oi.orderId == oid))).2) := by
    have hpair : OrderService.restoreItems db
        (db.orderItems.filter (fun oi => oi.orderId == oid)) =
        ((OrderService.restoreItems db
          (db.orderItems.filter (fun oi => oi.orderId == oid))).1,
         (OrderService.restoreItems db
          (db.orderItems.filter (fun oi => oi.orderId == oid))).2) := rfl
    rw [hpair, hok]
  have hcan : OrderService.cancelOrder db oid =
      (.ok { order with status := OrderStatus.cancelled },
       ((OrderService.restoreItems db
          (db.orderItems.filter (fun oi => oi.orderId == oid))).2).saveOrder
         { order with status := OrderStatus.cancelled }) := by
    rw [OrderService.cancelOrder, OrderService.findById, hord]
    dsimp only
    rw [if_neg hstat, hre]
  have hoid : order.id = oid := findRow_key hord
  rw [hcan]
  refine ⟨rfl, ?_, hside.2.1, hside.2.2.1, ?_⟩
  · dsimp only
    rw [findOrder_saveOrder]
    rw [if_pos hoid]
    have hRo : (OrderService.restoreItems db
        (db.orderItems.filter (fun oi => oi.orderId == oid))).2.findOrder oid =
        some order := by
      rw [DB.findOrder, findRow]
      rw [hside.1]
      exact hord
    rw [hRo]
    rfl
  · intro k p p' hp hp'
    exact heff k p p' hp hp'

/-- Claim C7: cancelling an order whose status is delivered or cancelled
fails with the BadRequest invalid-state error and leaves the database
exactly as it was — the order, its line items and all products included;
cancelling an order in any other status succeeds (provided each line item
references an existing product row), adds each line item quantity back onto
the stock of its product, subtracts the same quantity from the sales
counter, and sets the order status to cancelled. -/
theorem cancelOrder_spec (db : DB) (oid : Nat) (order : Order)
    (hord : db.findOrder oid = some order) :
    ((order.status = OrderStatus.delivered ∨ order.status = OrderStatus.cancelled) →
      OrderService.cancelOrder db oid =
        (.error (.badRequest "Cannot cancel this order"), db)) ∧
    (¬(order.status = OrderStatus.delivered ∨ order.status = OrderStatus.cancelled) →
      (∀ oi ∈ db.orderItems.filter (fun oi => oi.orderId == oid),
        (db.findProduct oi.productId).isSome) →
      (OrderService.cancelOrder db oid).1 =
        .ok { order with status := OrderStatus.cancelled } ∧
      (OrderService.cancelOrder db oid).2.findOrder oid =
        some { order with status := OrderStatus.cancelled } ∧
      (OrderService.cancelOrder db oid).2.orderItems = db.orderItems ∧
      (OrderService.cancelOrder db oid).2.carts = db.carts ∧
      (∀ k p p', db.findProduct k = some p →
        (OrderService.cancelOrder db oid).2.findProduct k = some p' →
        p'.stockQuantity = p.stockQuantity +
          qtyItems k (db.orderItems.filter (fun oi => oi.orderId == oid)) ∧
        p'.salesCount = p.salesCount -
          qtyItems k (db.orderItems.filter (fun oi => oi.orderId == oid)) ∧
        p'.status = p.status)) :=
  ⟨fun hstat => cancelOrder_reject hord hstat,
   fun hstat hex => cancelOrder_ok_state db oid order hord hstat hex⟩

/-- Witness for C7: on dbG, cancelling the delivered order 41 fails and
changes nothing, while cancelling the shipped order 40 succeeds, restores 3
units onto product 1 (stock 10 to 13), subtracts 3 from its sales counter,
and marks the order cancelled. -/
theorem cancelOrder_spec_witness :
    OrderService.cancelOrder dbG 41 =
      (.error (.badRequest "Cannot cancel this order"), dbG) ∧
    (OrderService.cancelOrder dbG 40).1 =
      .ok { ordG with status := OrderStatus.cancelled } ∧
    (OrderService.cancelOrder dbG 40).2.findOrder 40 =
      some { ordG with status := OrderStatus.cancelled } ∧
    (OrderService.cancelOrder dbG 40).2.orderItems = dbG.orderItems ∧
    (OrderService.cancelOrder dbG 40).2.carts = dbG.carts ∧
    prodA13.stockQuantity = prodA.stockQuantity +
      qtyItems 1 (dbG.orderItems.filter (fun oi => oi.orderId == 40)) ∧
    prodA13.salesCount = prodA.salesCount -
      qtyItems 1 (dbG.orderItems.filter (fun oi => oi.orderId == 40)) ∧
    prodA13.status = prodA.status := by
  obtain ⟨h₁, h₂, h₃, h₄, heff⟩ :=
    (cancelOrder_spec dbG 40 ordG rfl).2 (by decide) (by decide)
  obtain ⟨e₁, e₂, e₃⟩ := heff 1 prodA prodA13 rfl (by rfl)
  exact ⟨(cancelOrder_spec dbG 41 ordH rfl).1 (Or.inl rfl), h₁, h₂, h₃, h₄, e₁, e₂, e₃⟩

/-- Claim C10: updateStock marks a product out_of_stock exactly when the
guarded decrement lands on stock 0 (otherwise the status is left as it
was); the stock restoration of cancelOrder adds quantities back and
subtracts them from salesCount but never touches the status column; a
product whose status is out_of_stock has isInStock false whatever its
stockQuantity, and ordering it fails with the out-of-stock error — so a
product sold down to 0 stays unorderable even after a cancellation makes
its stock positive again. -/
theorem outOfStock_status_coupling :
    (∀ (db : DB) (pid : Nat) (q : Int) (r p : Product),
      (ProductService.updateStock db pid q).1 = .ok r →
      db.findProduct pid = some p →
      r.stockQuantity = p.stockQuantity - q ∧
      r.salesCount = p.salesCount + q ∧
      r.status = (if p.stockQuantity - q = 0 then ProductStatus.out_of_stock else p.status) ∧
      (ProductService.updateStock db pid q).2.findProduct pid = some r) ∧
    (∀ (db : DB) (oid : Nat) (order : Order),
      db.findOrder oid = some order →
      ¬(order.status = OrderStatus.delivered ∨ order.status = OrderStatus.cancelled) →
      (∀ oi ∈ db.orderItems.filter (fun oi => oi.orderId == oid),
        (db.findProduct oi.productId).isSome) →
      ∀ k p p', db.findProduct k = some p →
        (OrderService.cancelOrder db oid).2.findProduct k = some p' →
        p'.stockQuantity = p.stockQuantity +
          qtyItems k (db.orderItems.filter (fun oi => oi.orderId == oid)) ∧
        p'.salesCount = p.salesCount -
          qtyItems k (db.orderItems.filter (fun oi => oi.orderId == oid)) ∧
        p'.status = p.status) ∧
    (∀ p : Product, p.status = ProductStatus.out_of_stock → p.isInStock = false) ∧
    (∀ (db : DB) (uid : Nat) (dto : CreateOrderDto) (onum : String)
        (item : CreateOrderItemDto) (rest : List CreateOrderItemDto) (p : Product),
      dto.orderItems = item :: rest →
      db.findProduct item.productId = some p →
      p.status = ProductStatus.out_of_stock →
      (OrderService.create db uid dto onum).1 =
        .error (.badRequest ("Product " ++ p.name ++ " is out of stock"))) := by
  refine ⟨?_, ?_, ?_, ?_⟩
  · intro db pid q r p h hp
    obtain ⟨p₀, hp₀, hq₀, hr, _, hpt⟩ := updateStock_ok_effect h
    rw [hp] at hp₀
    injection hp₀ with he
    subst he
    subst hr
    refine ⟨stockedRow_stock p q, stockedRow_sales p q, stockedRow_status p q, ?_⟩
    rw [hpt pid, if_pos rfl]
  · intro db oid order hord hstat hex k p p' hp hp'
    exact (cancelOrder_ok_state db oid order hord hstat hex).2.2.2.2 k p p' hp hp'
  · intro p hst
    rw [Product.isInStock, hst]
    simp
  · intro db uid dto onum item rest p hitems hp hst
    apply create_first_item_not_in_stock hitems hp
    rw [Product.isInStock, hst]
    simp

end Ecom
